import Mathlib

/-!
Verification development for the inter-frame motion-vector candidate
derivation engine of libgav1 (`motion_vector.cc`).  The definitions below
are a shallow embedding of the source: pure C++ functions become Lean
functions, out-parameters become explicit state threading, `int16_t`
storage is modelled by `Int` with an explicit wrap to the 16-bit signed
range where an assignment may overflow, and the bounded C loops become
fuel-indexed structural recursions whose fuel provably exceeds the
iteration count (step sizes are at least 1).
-/

namespace Libgav1

/-- Arithmetic right shift of a (two's-complement) signed integer:
floor division by a power of two.  `Int` division in Lean is Euclidean,
which coincides with floor division for positive divisors. -/
def sar (v : Int) (b : Nat) : Int := v / (2 ^ b)

/-- Wrap an integer into the value range of `int16_t`, modelling the
conversion applied when an `int` result is stored into an `int16_t`
field. -/
def wrap16 (v : Int) : Int := (v + 2 ^ 15) % 2 ^ 16 - 2 ^ 15

/-- Modelled from the spec: `ApplySign(value, sign)` from the missing
`utils/common.h` reapplies a sign to a magnitude; the source computes it
as `(value ^ sign) - sign` with `sign` either `0` or `-1`. -/
def ApplySign (value sign : Int) : Int := if sign < 0 then -value else value

/-- Modelled from the spec: `Clip3(value, low, high)` from the missing
`utils/common.h` clamps `value` to `[low, high]`. -/
def Clip3 (value low high : Int) : Int := min high (max low value)

/-- Modelled from the spec: `RightShiftWithRounding` from the missing
`utils/common.h`: add half of the divisor, then shift right (inputs are
non-negative at use sites). -/
def RightShiftWithRounding (v : Int) (b : Nat) : Int := (v + 2 ^ (b - 1)) / 2 ^ b

/-- Modelled from the spec: `RightShiftWithRoundingSigned` from the
missing `utils/common.h`: rounds the magnitude and reapplies the sign. -/
def RightShiftWithRoundingSigned (v : Int) (b : Nat) : Int :=
  if 0 ≤ v then RightShiftWithRounding v b else -(RightShiftWithRounding (-v) b)

/-- Modelled from the spec: `GetRelativeDistance` from the missing
`utils/common.h`: the signed relative distance between two order hints,
sign-extended to the order-hint bit width (`32 - order_hint_shift_bits`),
or `0` when order hints are unused. -/
def GetRelativeDistance (a b : Nat) (orderHintShiftBits : Nat) : Int :=
  if orderHintShiftBits = 0 then 0
  else
    let bits := 32 - orderHintShiftBits
    ((a : Int) - (b : Int) + 2 ^ (bits - 1)) % 2 ^ bits - 2 ^ (bits - 1)

/-! Constants from `utils/constants.h` (absent from the excerpt; values
are fixed by the AV1 format and restated by the spec where used). -/

def kMaxRefMvStackSize : Nat := 8

def kMaxFrameDistance : Int := 31

def kProjectionMvClamp : Int := 16383

def kInvalidMvValue : Int := -32768

def kWarpedModelPrecisionBits : Nat := 16

def kMaxLeastSquaresSamples : Nat := 8

def kMaxBlockSizes : Nat := 22

/-- Reference frame types (`ReferenceFrameType`). -/
def kReferenceFrameNone : Int := -1

def kReferenceFrameIntra : Int := 0

def kReferenceFrameLast : Int := 1

def kReferenceFrameGolden : Int := 4

def kReferenceFrameBackward : Int := 5

def kReferenceFrameAlternate2 : Int := 6

def kReferenceFrameAlternate : Int := 7

def kNumReferenceFrameTypes : Nat := 8

/-- Global motion transformation types. -/
def kGlobalMotionTransformationTypeIdentity : Nat := 0

def kGlobalMotionTransformationTypeTranslation : Nat := 1

def kGlobalMotionTransformationTypeRotZoom : Nat := 2

def kGlobalMotionTransformationTypeAffine : Nat := 3

def kNumGlobalMotionTransformationTypes : Nat := 4

/-- Modelled from the spec: prediction-mode identifiers (the enum lives in
the missing `utils/constants.h`); only the membership of the six "new MV"
modes matters here, the numeric values are immaterial. -/
def kPredictionModeNewMv : Nat := 17

def kPredictionModeNearestNearestMv : Nat := 18

def kPredictionModeNearestNewMv : Nat := 20

def kPredictionModeNewNearestMv : Nat := 21

def kPredictionModeNearNewMv : Nat := 22

def kPredictionModeNewNearMv : Nat := 23

def kPredictionModeGlobalGlobalMv : Nat := 24

def kPredictionModeNewNewMv : Nat := 25

/-- Membership test of `kPredictionModeNewMvMask` (a `BitMaskSet` over the
six modes that code a new motion vector). -/
def kPredictionModeNewMvMaskContains (mode : Nat) : Bool :=
  mode = kPredictionModeNewMv || mode = kPredictionModeNewNewMv ||
  mode = kPredictionModeNearNewMv || mode = kPredictionModeNewNearMv ||
  mode = kPredictionModeNearestNewMv || mode = kPredictionModeNewNearestMv

/-- Block sizes (`BlockSize`), in the source's enumeration order. -/
def kBlock8x8 : Nat := 4

def kBlock8x16 : Nat := 5

def kBlock8x32 : Nat := 6

def kBlock16x8 : Nat := 8

def kBlock16x16 : Nat := 9

def kBlock16x32 : Nat := 10

def kBlock32x8 : Nat := 12

def kBlock32x16 : Nat := 13

def kBlock32x32 : Nat := 14

def kBlock64x64 : Nat := 18

/-- Width of each block size in 4x4 units (`kNum4x4BlocksWide` from the
missing `utils/constants.h`; the 22 sizes run 4x4 .. 128x128). -/
def kNum4x4BlocksWideList : List Nat :=
  [1, 1, 1, 2, 2, 2, 2, 4, 4, 4, 4, 4, 8, 8, 8, 8, 16, 16, 16, 16, 32, 32]

def kNum4x4BlocksWide (size : Nat) : Nat := kNum4x4BlocksWideList.getD size 1

/-- Height of each block size in 4x4 units (`kNum4x4BlocksHigh`). -/
def kNum4x4BlocksHighList : List Nat :=
  [1, 2, 4, 1, 2, 4, 8, 1, 2, 4, 8, 16, 2, 4, 8, 16, 4, 8, 16, 32, 16, 32]

def kNum4x4BlocksHigh (size : Nat) : Nat := kNum4x4BlocksHighList.getD size 1

/-- Entry at index i is computed as
`Clip3(std::max(kBlockWidthPixels[i], kBlockHeightPixels[i]), 16, 112)`. -/
def kWarpValidThresholdList : List Int :=
  [16, 16, 16, 16, 16, 16, 32, 16, 16, 16, 32,
   64, 32, 32, 32, 64, 64, 64, 64, 112, 112, 112]

def kWarpValidThreshold (size : Nat) : Int := kWarpValidThresholdList.getD size 16

/-- Modelled from the spec: `kProjectionMvDivisionLookup[d]` is the Q14
reciprocal of the frame-distance denominator `d` used by the ratio-based
projection scaling (`reciprocal(denominator)` scaled by `2^14`). -/
def kProjectionMvDivisionLookup (d : Int) : Int := if 0 < d then 16384 / d else 0

/-- Membership test of `kTemporalScanMask` (block sizes that take the
three extra temporal corner/edge samples). -/
def kTemporalScanMaskContains (size : Nat) : Bool :=
  size = kBlock8x8 || size = kBlock8x16 || size = kBlock8x32 ||
  size = kBlock16x8 || size = kBlock16x16 || size = kBlock16x32 ||
  size = kBlock32x8 || size = kBlock32x16 || size = kBlock32x32

/-- Modelled from the spec: `IsGlobalMvBlock` from the missing
`utils/common.h`: the neighbor block used global motion and the model is
more than a translation. -/
def IsGlobalMvBlock (isGlobalMvBlock : Bool) (globalMotionType : Nat) : Bool :=
  isGlobalMvBlock && globalMotionType > kGlobalMotionTransformationTypeTranslation

/-- Modelled from the spec: `IsIntraFrame` from the missing
`utils/common.h` (key frames and intra-only frames). -/
def kFrameKey : Nat := 0

def kFrameInter : Nat := 1

def kFrameIntraOnly : Nat := 2

def IsIntraFrame (frameType : Nat) : Bool :=
  frameType = kFrameKey || frameType = kFrameIntraOnly

/-- A motion vector: two signed 16-bit components (`mv[0]` is the row,
`mv[1]` the column), in 1/8-pixel units. -/
structure MotionVector where
  mv0 : Int
  mv1 : Int
deriving DecidableEq

def MotionVector.zero : MotionVector := ⟨0, 0⟩

/-- A compound motion vector: one motion vector per reference direction. -/
structure CompoundMotionVector where
  mv0 : MotionVector
  mv1 : MotionVector
deriving DecidableEq

/-- Component access `mv.mv[index]` of a compound motion vector. -/
def CompoundMotionVector.get (c : CompoundMotionVector) (index : Nat) : MotionVector :=
  if index = 0 then c.mv0 else c.mv1

/-- Per-reference global motion record: transformation type and the six
warped-model parameters (`params.getD i 0` models `params[i]`). -/
structure GlobalMotion where
  gmType : Nat
  params : List Int
deriving DecidableEq

def GlobalMotion.param (gm : GlobalMotion) (i : Nat) : Int := gm.params.getD i 0

/-- Per-decoded-block metadata (`BlockParameters`), written once when the
owning block finishes decoding. -/
structure BlockParameters where
  size : Nat
  referenceFrame0 : Int
  referenceFrame1 : Int
  mv : CompoundMotionVector
  isInter : Bool
  isGlobalMvBlock : Bool
  yMode : Nat
deriving DecidableEq

/-- The frame-header fields consumed by this engine. -/
structure ObuFrameHeader where
  allowHighPrecisionMv : Bool
  forceIntegerMv : Nat
  useRefFrameMvs : Bool
  globalMotion : List GlobalMotion
  columns4x4 : Int
  rows4x4 : Int
  orderHint : Nat
  referenceFrameIndex : List Nat
deriving DecidableEq

/-- Lookup `frame_header.global_motion[reference_type]` (reference types
are never negative at the use sites). -/
def ObuFrameHeader.globalMotionAt (fh : ObuFrameHeader) (referenceType : Int) : GlobalMotion :=
  fh.globalMotion.getD referenceType.toNat ⟨0, []⟩

/-- Per-block output record (`PredictionParameters`).  The candidate
stacks are lists whose length is the current candidate count; a slot
write at the count is an append.  Modelled from the spec: the parallel
`weight_index_stack` holds the accumulated weight of each stack entry
(the source additionally packs the entry index into the same `int16_t`
in the missing `utils/types.h`; only the weights take part in the
comparisons stated here). -/
structure PredictionParameters where
  globalMv0 : MotionVector
  globalMv1 : MotionVector
  refMvStack : List MotionVector
  compoundRefMvStack : List CompoundMotionVector
  weightIndexStack : List Int
  nearestMvCount : Nat
  refMvCount : Nat
deriving DecidableEq

/-- Modelled from the spec: `PredictionParameters::IncreaseWeight` adds
`weight` to the stack entry at `index`. -/
def PredictionParameters.IncreaseWeight (pp : PredictionParameters) (index : Nat)
    (weight : Int) : PredictionParameters :=
  { pp with weightIndexStack :=
      pp.weightIndexStack.set index (pp.weightIndexStack.getD index 0 + weight) }

/-- Modelled from the spec: `PredictionParameters::SetWeightIndexStackEntry`
writes the weight of the stack entry at `index`; slots are always written
in order, so writing at the current length appends. -/
def PredictionParameters.SetWeightIndexStackEntry (pp : PredictionParameters) (index : Nat)
    (weight : Int) : PredictionParameters :=
  { pp with weightIndexStack := pp.weightIndexStack.take index ++ [weight] }

/-- The three context indices handed to the entropy decoder; `zeroMv`
uses `-1` as the "unset" sentinel. -/
structure MvContexts where
  newMv : Int
  referenceMv : Int
  zeroMv : Int
deriving DecidableEq

/-- The per-frame temporal motion field: a grid of stored motion vectors
and reference distances (flattened; the exact layout is irrelevant to the
claims, which only observe whether the field is modified). -/
structure TemporalMotionField where
  mv : List MotionVector
  referenceOffset : List Int
deriving DecidableEq

/-- The slice of `RefCountedBuffer` state consulted by the motion field
projector. -/
structure RefFrame where
  rows4x4 : Int
  columns4x4 : Int
  frameType : Nat
deriving DecidableEq

/-- Read access to the surrounding tile/frame state: availability
predicates, the neighbor store, and the temporal motion field.  Function
fields model the source's query interfaces. -/
structure Tile where
  frameHeader : ObuFrameHeader
  isTopInside : Int → Bool
  isLeftInside : Int → Bool
  isInside : Int → Int → Bool
  isTopLeftInside : Int → Int → Bool
  isBottomRightInside : Int → Int → Bool
  hasParameters : Int → Int → Bool
  parameters : Int → Int → BlockParameters
  motionFieldMv : Int → MotionVector
  motionFieldReferenceOffset : Int → Int
  motionFieldStride : Nat
  referenceFrameSignBias : Int → Bool
  currentFrameOrderHint : Int → Nat
  orderHintShiftBits : Nat

/-- The block being derived (`Tile::Block`): its position, size, own
parameters and plane-availability flags. -/
structure Block where
  tile : Tile
  row4x4 : Nat
  column4x4 : Nat
  size : Nat
  bp : BlockParameters
  topAvailableY : Bool
  leftAvailableY : Bool

def Block.width4x4 (b : Block) : Nat := kNum4x4BlocksWide b.size

def Block.height4x4 (b : Block) : Nat := kNum4x4BlocksHigh b.size

/-- Block width in pixels (`kBlockWidthPixels[size]`). -/
def Block.width (b : Block) : Nat := 4 * b.width4x4

def Block.height (b : Block) : Nat := 4 * b.height4x4

/-- Section 7.10.2.10, `LowerMvPrecision`, one component of the
`force_integer_mv` branch: `value = (|mv| + 3) & ~7` (clearing the low
three bits of the non-negative value), `sign = mv >> 15` in `int16_t`
arithmetic, and the signed result is stored back into the `int16_t`
component. -/
def lowerMvPrecisionForceInteger (v : Int) : Int :=
  let t : Int := (v.natAbs : Int) + 3
  let value : Int := t - t % 8
  let sign : Int := sar v 15
  wrap16 (ApplySign value sign)

/-- Section 7.10.2.10, `LowerMvPrecision`, one component of the
non-integer branch: an odd component moves one step toward zero (the
source computes `mv -= (mv >> 15) | 1`, documented as equivalent to
decrementing a positive and incrementing a negative value). -/
def lowerMvPrecisionOdd (v : Int) : Int :=
  if v % 2 ≠ 0 then (if 0 < v then v - 1 else v + 1) else v

/-- Section 7.10.2.10: lower the precision of a motion vector according
to the frame header flags. -/
def LowerMvPrecision (fh : ObuFrameHeader) (mv : MotionVector) : MotionVector :=
  if fh.allowHighPrecisionMv then mv
  else if fh.forceIntegerMv ≠ 0 then
    ⟨lowerMvPrecisionForceInteger mv.mv0, lowerMvPrecisionForceInteger mv.mv1⟩
  else
    ⟨lowerMvPrecisionOdd mv.mv0, lowerMvPrecisionOdd mv.mv1⟩

/-- Section 7.9.3, `GetMvProjection`: ratio-based scaling of a stored
motion vector to the current reference distance, clamped to the fixed
symmetric projection range. -/
def GetMvProjection (mv : MotionVector) (numerator denominator : Int) : MotionVector :=
  let n := Clip3 numerator (-kMaxFrameDistance) kMaxFrameDistance
  ⟨Clip3 (RightShiftWithRoundingSigned
        (mv.mv0 * n * kProjectionMvDivisionLookup denominator) 14)
      (-kProjectionMvClamp) kProjectionMvClamp,
    Clip3 (RightShiftWithRoundingSigned
        (mv.mv1 * n * kProjectionMvDivisionLookup denominator) 14)
      (-kProjectionMvClamp) kProjectionMvClamp⟩

/-- Section 7.10.2.1, `SetupGlobalMv`: the block's predicted motion
vector under the frame's global motion model for reference `index`. -/
def SetupGlobalMv (block : Block) (index : Nat) : MotionVector :=
  let fh := block.tile.frameHeader
  let referenceType := if index = 0 then block.bp.referenceFrame0 else block.bp.referenceFrame1
  let gm := fh.globalMotionAt referenceType
  let globalMotionType :=
    if referenceType ≠ kReferenceFrameIntra then gm.gmType
    else kNumGlobalMotionTransformationTypes
  if referenceType = kReferenceFrameIntra ∨
      globalMotionType = kGlobalMotionTransformationTypeIdentity then
    MotionVector.zero
  else if globalMotionType = kGlobalMotionTransformationTypeTranslation then
    LowerMvPrecision fh
      ⟨wrap16 (sar (gm.param 0) (kWarpedModelPrecisionBits - 3)),
        wrap16 (sar (gm.param 1) (kWarpedModelPrecisionBits - 3))⟩
  else
    let x : Int := 4 * (block.column4x4 : Int) + (block.width : Int) / 2 - 1
    let y : Int := 4 * (block.row4x4 : Int) + (block.height : Int) / 2 - 1
    let xc := (gm.param 2 - 2 ^ kWarpedModelPrecisionBits) * x + gm.param 3 * y + gm.param 0
    let yc := gm.param 4 * x + (gm.param 5 - 2 ^ kWarpedModelPrecisionBits) * y + gm.param 1
    if fh.allowHighPrecisionMv then
      ⟨wrap16 (RightShiftWithRoundingSigned yc (kWarpedModelPrecisionBits - 3)),
        wrap16 (RightShiftWithRoundingSigned xc (kWarpedModelPrecisionBits - 3))⟩
    else
      LowerMvPrecision fh
        ⟨wrap16 (2 * RightShiftWithRoundingSigned yc (kWarpedModelPrecisionBits - 2)),
          wrap16 (2 * RightShiftWithRoundingSigned xc (kWarpedModelPrecisionBits - 2))⟩

def CompoundMotionVector.zero : CompoundMotionVector :=
  ⟨MotionVector.zero, MotionVector.zero⟩

/-- State threaded through one spatial scan: the `found_new_mv` flag, the
`found_match` flag the caller aliased for this scan, the candidate count
and the prediction parameters. -/
structure ScanOut where
  foundNewMv : Bool
  foundMatch : Bool
  numMvFound : Nat
  pp : PredictionParameters
deriving DecidableEq

/-- Candidate selection of section 7.10.2.8: the neighbor's motion vector
for direction `index`, or the block's own global MV when the neighbor is
a global-MV block. -/
def SearchStackCandidate (block : Block) (mvBp : BlockParameters) (index : Nat)
    (pp : PredictionParameters) : MotionVector :=
  let globalMotionType :=
    (block.tile.frameHeader.globalMotionAt block.bp.referenceFrame0).gmType
  if IsGlobalMvBlock mvBp.isGlobalMvBlock globalMotionType then pp.globalMv0
  else mvBp.mv.get index

/-- Section 7.10.2.8, `SearchStack`: deduplicating insertion of a
single-prediction candidate into `ref_mv_stack`. -/
def SearchStack (block : Block) (mvBp : BlockParameters) (index : Nat) (weight : Int)
    (foundNewMv foundMatch : Bool) (numMvFound : Nat) (pp : PredictionParameters) : ScanOut :=
  let candidateMv := SearchStackCandidate block mvBp index pp
  let foundNewMv := foundNewMv || kPredictionModeNewMvMaskContains mvBp.yMode
  let foundMatch := true
  let searched := pp.refMvStack.take numMvFound
  let i := searched.findIdx (fun r => decide (r = candidateMv))
  if i < searched.length then
    ⟨foundNewMv, foundMatch, numMvFound, pp.IncreaseWeight i weight⟩
  else if kMaxRefMvStackSize ≤ numMvFound then
    ⟨foundNewMv, foundMatch, numMvFound, pp⟩
  else
    let pp := { pp with refMvStack := pp.refMvStack.take numMvFound ++ [candidateMv] }
    let pp := pp.SetWeightIndexStackEntry numMvFound weight
    ⟨foundNewMv, foundMatch, numMvFound + 1, pp⟩

/-- Candidate selection of section 7.10.2.9: the neighbor's compound
motion vector, with each direction replaced by the block's global MV
when the neighbor is a global-MV block for that direction. -/
def CompoundSearchStackCandidate (block : Block) (mvBp : BlockParameters)
    (pp : PredictionParameters) : CompoundMotionVector :=
  let fh := block.tile.frameHeader
  let mv0 :=
    if IsGlobalMvBlock mvBp.isGlobalMvBlock
        (fh.globalMotionAt block.bp.referenceFrame0).gmType then pp.globalMv0
    else mvBp.mv.mv0
  let mv1 :=
    if IsGlobalMvBlock mvBp.isGlobalMvBlock
        (fh.globalMotionAt block.bp.referenceFrame1).gmType then pp.globalMv1
    else mvBp.mv.mv1
  ⟨mv0, mv1⟩

/-- Section 7.10.2.9, `CompoundSearchStack`: deduplicating insertion of a
compound candidate into `compound_ref_mv_stack`. -/
def CompoundSearchStack (block : Block) (mvBp : BlockParameters) (weight : Int)
    (foundNewMv foundMatch : Bool) (numMvFound : Nat) (pp : PredictionParameters) : ScanOut :=
  let candidateMv := CompoundSearchStackCandidate block mvBp pp
  let foundNewMv := foundNewMv || kPredictionModeNewMvMaskContains mvBp.yMode
  let foundMatch := true
  let searched := pp.compoundRefMvStack.take numMvFound
  let i := searched.findIdx (fun r => decide (r = candidateMv))
  if i < searched.length then
    ⟨foundNewMv, foundMatch, numMvFound, pp.IncreaseWeight i weight⟩
  else if kMaxRefMvStackSize ≤ numMvFound then
    ⟨foundNewMv, foundMatch, numMvFound, pp⟩
  else
    let pp := { pp with compoundRefMvStack := pp.compoundRefMvStack.take numMvFound ++ [candidateMv] }
    let pp := pp.SetWeightIndexStackEntry numMvFound weight
    ⟨foundNewMv, foundMatch, numMvFound + 1, pp⟩

/-- Section 7.10.2.7, `AddReferenceMvCandidate`: route an inter neighbor
to the single or compound insertion according to reference matches. -/
def AddReferenceMvCandidate (block : Block) (mvBp : BlockParameters) (isCompound : Bool)
    (weight : Int) (s : ScanOut) : ScanOut :=
  if !mvBp.isInter then s
  else if isCompound then
    if mvBp.referenceFrame0 = block.bp.referenceFrame0 ∧
        mvBp.referenceFrame1 = block.bp.referenceFrame1 then
      CompoundSearchStack block mvBp weight s.foundNewMv s.foundMatch s.numMvFound s.pp
    else s
  else
    let s :=
      if mvBp.referenceFrame0 = block.bp.referenceFrame0 then
        SearchStack block mvBp 0 weight s.foundNewMv s.foundMatch s.numMvFound s.pp
      else s
    if mvBp.referenceFrame1 = block.bp.referenceFrame0 then
      SearchStack block mvBp 1 weight s.foundNewMv s.foundMatch s.numMvFound s.pp
    else s

/-- Minimum scan step from the block extent and the scan offset. -/
def GetMinimumStep (blockWidthOrHeight4x4 : Nat) (deltaRowOrColumn : Int) : Nat :=
  if 16 ≤ blockWidthOrHeight4x4 then 4
  else if deltaRowOrColumn < -1 then 2
  else 0

/-- Loop body of section 7.10.2.2: a do-while over the neighbor row,
stepping by each neighbor's clipped width.  The fuel is at least the
remaining column distance plus one, which bounds the iteration count
because every step is at least 1. -/
def ScanRowLoop (block : Block) (mvRow : Int) (isCompound : Bool) (minStep : Nat)
    (endPos : Int) (fuel : Nat) (pos : Int) (s : ScanOut) : ScanOut :=
  match fuel with
  | 0 => s
  | fuel + 1 =>
    let mvBp := block.tile.parameters mvRow pos
    let step := max (min block.width4x4 (kNum4x4BlocksWide mvBp.size)) minStep
    let s := AddReferenceMvCandidate block mvBp isCompound (2 * (step : Int)) s
    if pos + (step : Int) < endPos then
      ScanRowLoop block mvRow isCompound minStep endPos fuel (pos + (step : Int)) s
    else s

/-- Section 7.10.2.2, `ScanRow`. -/
def ScanRow (block : Block) (mvColumn : Int) (deltaRow : Int) (isCompound : Bool)
    (s : ScanOut) : ScanOut :=
  let mvRow := (block.row4x4 : Int) + deltaRow
  let tile := block.tile
  if tile.isTopInside (mvRow + 1) then
    let minStep := GetMinimumStep block.width4x4 deltaRow
    let n : Int :=
      min (min (block.width4x4 : Int) (tile.frameHeader.columns4x4 - (block.column4x4 : Int))) 16
    let endPos := mvColumn + n
    ScanRowLoop block mvRow isCompound minStep endPos (n.toNat + 1) mvColumn s
  else s

/-- Loop body of section 7.10.2.3: the columnar mirror of `ScanRowLoop`
(the source's pointer advances by `step * stride`, i.e. by `step` rows). -/
def ScanColumnLoop (block : Block) (mvColumn : Int) (isCompound : Bool) (minStep : Nat)
    (endPos : Int) (fuel : Nat) (pos : Int) (s : ScanOut) : ScanOut :=
  match fuel with
  | 0 => s
  | fuel + 1 =>
    let mvBp := block.tile.parameters pos mvColumn
    let step := max (min block.height4x4 (kNum4x4BlocksHigh mvBp.size)) minStep
    let s := AddReferenceMvCandidate block mvBp isCompound (2 * (step : Int)) s
    if pos + (step : Int) < endPos then
      ScanColumnLoop block mvColumn isCompound minStep endPos fuel (pos + (step : Int)) s
    else s

/-- Section 7.10.2.3, `ScanColumn`. -/
def ScanColumn (block : Block) (mvRow : Int) (deltaColumn : Int) (isCompound : Bool)
    (s : ScanOut) : ScanOut :=
  let mvColumn := (block.column4x4 : Int) + deltaColumn
  let tile := block.tile
  if tile.isLeftInside (mvColumn + 1) then
    let minStep := GetMinimumStep block.height4x4 deltaColumn
    let n : Int :=
      min (min (block.height4x4 : Int) (tile.frameHeader.rows4x4 - (block.row4x4 : Int))) 16
    let endPos := mvRow + n
    ScanColumnLoop block mvColumn isCompound minStep endPos (n.toNat + 1) mvRow s
  else s

/-- Section 7.10.2.4, `ScanPoint`: a single fixed-offset neighbor probe. -/
def ScanPoint (block : Block) (deltaRow deltaColumn : Int) (isCompound : Bool)
    (s : ScanOut) : ScanOut :=
  let mvRow := (block.row4x4 : Int) + deltaRow
  let mvColumn := (block.column4x4 : Int) + deltaColumn
  let tile := block.tile
  if tile.isInside mvRow mvColumn && tile.hasParameters mvRow mvColumn then
    let mvBp := tile.parameters mvRow mvColumn
    if mvBp.referenceFrame0 = kReferenceFrameNone then s
    else AddReferenceMvCandidate block mvBp isCompound 4 s
  else s

/-- State threaded through the temporal candidate insertion. -/
structure TemporalOut where
  zeroMvContext : Int
  numMvFound : Nat
  pp : PredictionParameters
deriving DecidableEq

/-- Projection of one stored temporal vector for one reference direction
(section 7.10.2.6): projected, then precision-lowered; zero when the
reference offset is zero. -/
def temporalCandidateSingle (fh : ObuFrameHeader) (referenceOffset0 : Int)
    (temporalMv : MotionVector) (temporalReferenceOffset : Int) : MotionVector :=
  if referenceOffset0 ≠ 0 then
    LowerMvPrecision fh (GetMvProjection temporalMv referenceOffset0 temporalReferenceOffset)
  else MotionVector.zero

/-- Maximum per-component absolute deviation of a single-prediction
candidate from the global MV. -/
def temporalMaxDifferenceSingle (globalMv0 candidateMv : MotionVector) : Int :=
  max |candidateMv.mv0 - globalMv0.mv0| |candidateMv.mv1 - globalMv0.mv1|

/-- One iteration of the single-prediction do-while of section 7.10.2.6,
`AddTemporalReferenceMvCandidate`. -/
def AddTemporalSingleStep (fh : ObuFrameHeader) (referenceOffset0 : Int)
    (s : TemporalOut) (cand : MotionVector × Int) : TemporalOut :=
  let candidateMv := temporalCandidateSingle fh referenceOffset0 cand.1 cand.2
  let zeroMvContext :=
    if s.zeroMvContext = -1 then
      if 16 ≤ temporalMaxDifferenceSingle s.pp.globalMv0 candidateMv then 1 else 0
    else s.zeroMvContext
  let searched := s.pp.refMvStack.take s.numMvFound
  let i := searched.findIdx (fun r => decide (r = candidateMv))
  if i < searched.length then
    ⟨zeroMvContext, s.numMvFound, s.pp.IncreaseWeight i 2⟩
  else if kMaxRefMvStackSize ≤ s.numMvFound then
    ⟨zeroMvContext, s.numMvFound, s.pp⟩
  else
    let pp := { s.pp with refMvStack := s.pp.refMvStack.take s.numMvFound ++ [candidateMv] }
    let pp := pp.SetWeightIndexStackEntry s.numMvFound 2
    ⟨zeroMvContext, s.numMvFound + 1, pp⟩

/-- Projection of one stored temporal vector for both reference
directions of a compound candidate. -/
def temporalCandidateCompound (fh : ObuFrameHeader) (referenceOffset0 referenceOffset1 : Int)
    (temporalMv : MotionVector) (temporalReferenceOffset : Int) : CompoundMotionVector :=
  ⟨if referenceOffset0 ≠ 0 then
      LowerMvPrecision fh (GetMvProjection temporalMv referenceOffset0 temporalReferenceOffset)
    else MotionVector.zero,
    if referenceOffset1 ≠ 0 then
      LowerMvPrecision fh (GetMvProjection temporalMv referenceOffset1 temporalReferenceOffset)
    else MotionVector.zero⟩

/-- Maximum per-component absolute deviation of a compound candidate from
the two global MVs. -/
def temporalMaxDifferenceCompound (globalMv0 globalMv1 : MotionVector)
    (candidateMv : CompoundMotionVector) : Int :=
  max (max (max |candidateMv.mv0.mv0 - globalMv0.mv0| |candidateMv.mv0.mv1 - globalMv0.mv1|)
        |candidateMv.mv1.mv0 - globalMv1.mv0|)
    |candidateMv.mv1.mv1 - globalMv1.mv1|

/-- One iteration of the compound do-while of section 7.10.2.6. -/
def AddTemporalCompoundStep (fh : ObuFrameHeader) (referenceOffset0 referenceOffset1 : Int)
    (s : TemporalOut) (cand : MotionVector × Int) : TemporalOut :=
  let candidateMv := temporalCandidateCompound fh referenceOffset0 referenceOffset1 cand.1 cand.2
  let zeroMvContext :=
    if s.zeroMvContext = -1 then
      if 16 ≤ temporalMaxDifferenceCompound s.pp.globalMv0 s.pp.globalMv1 candidateMv then 1
      else 0
    else s.zeroMvContext
  let searched := s.pp.compoundRefMvStack.take s.numMvFound
  let i := searched.findIdx (fun r => decide (r = candidateMv))
  if i < searched.length then
    ⟨zeroMvContext, s.numMvFound, s.pp.IncreaseWeight i 2⟩
  else if kMaxRefMvStackSize ≤ s.numMvFound then
    ⟨zeroMvContext, s.numMvFound, s.pp⟩
  else
    let pp := { s.pp with compoundRefMvStack := s.pp.compoundRefMvStack.take s.numMvFound ++ [candidateMv] }
    let pp := pp.SetWeightIndexStackEntry s.numMvFound 2
    ⟨zeroMvContext, s.numMvFound + 1, pp⟩

/-- Section 7.10.2.6, `AddTemporalReferenceMvCandidate`: process the
collected temporal candidates in scan order (the source's do-while is the
fold over the non-empty candidate list). -/
def AddTemporalReferenceMvCandidate (fh : ObuFrameHeader) (referenceOffsets : Int × Int)
    (cands : List (MotionVector × Int)) (isCompound : Bool) (s : TemporalOut) : TemporalOut :=
  if isCompound then
    cands.foldl (AddTemporalCompoundStep fh referenceOffsets.1 referenceOffsets.2) s
  else
    cands.foldl (AddTemporalSingleStep fh referenceOffsets.1) s

/-- Part of section 7.10.2.5: whether a sample offset stays inside the
block's 64x64 region. -/
def IsWithinTheSame64x64Block (block : Block) (deltaRow deltaColumn : Int) : Bool :=
  let row := ((block.row4x4 &&& 15 : Nat) : Int) + deltaRow
  let column := ((block.column4x4 &&& 15 : Nat) : Int) + deltaColumn
  decide (row < 16) && decide (0 ≤ column) && decide (column < 16)

/-- One sampled grid cell of section 7.10.2.5: an invalid stored vector
at the very first position signals the zero-MV context; a valid vector
is collected with its reference offset. -/
def TemporalScanSampleCell (tile : Tile) (rowStart columnStart mvRow mvColumn : Nat)
    (offset : Int) (zeroMvContext : Int) (cands : List (MotionVector × Int)) :
    Int × List (MotionVector × Int) :=
  if tile.isBottomRightInside (mvRow : Int) (mvColumn : Int) then
    let x8 := mvColumn >>> 1
    let temporalMv := tile.motionFieldMv (offset + (x8 : Int))
    let temporalReferenceOffset := tile.motionFieldReferenceOffset (offset + (x8 : Int))
    if temporalMv.mv0 = kInvalidMvValue then
      if mvRow = rowStart ∧ mvColumn = columnStart then (1, cands)
      else (zeroMvContext, cands)
    else (zeroMvContext, cands ++ [(temporalMv, temporalReferenceOffset)])
  else (zeroMvContext, cands)

/-- Inner (column) do-while of the temporal grid scan of section
7.10.2.5: samples the motion field, records the "first position invalid"
zero-MV signal, and collects valid candidates in scan order. -/
def TemporalScanColumnLoop (tile : Tile) (rowStart columnStart stepW columnEnd : Nat)
    (mvRow : Nat) (offset : Int) (fuel : Nat) (mvColumn : Nat)
    (zeroMvContext : Int) (cands : List (MotionVector × Int)) :
    Int × List (MotionVector × Int) :=
  match fuel with
  | 0 => (zeroMvContext, cands)
  | fuel + 1 =>
    let next := TemporalScanSampleCell tile rowStart columnStart mvRow mvColumn offset
      zeroMvContext cands
    if mvColumn + stepW < columnEnd then
      TemporalScanColumnLoop tile rowStart columnStart stepW columnEnd mvRow offset fuel
        (mvColumn + stepW) next.1 next.2
    else next

/-- Outer (row) do-while of the temporal grid scan; the flat motion-field
offset advances by `stride * step_h >> 1` per row group. -/
def TemporalScanRowLoop (tile : Tile) (rowStart columnStart stepW stepH columnEnd rowEnd : Nat)
    (fuel : Nat) (mvRow : Nat) (offset : Int)
    (zeroMvContext : Int) (cands : List (MotionVector × Int)) :
    Int × List (MotionVector × Int) :=
  match fuel with
  | 0 => (zeroMvContext, cands)
  | fuel + 1 =>
    let p := TemporalScanColumnLoop tile rowStart columnStart stepW columnEnd mvRow offset
      ((columnEnd - columnStart) + 1) columnStart zeroMvContext cands
    let offset := offset + (((tile.motionFieldStride * stepH) >>> 1 : Nat) : Int)
    if mvRow + stepH < rowEnd then
      TemporalScanRowLoop tile rowStart columnStart stepW stepH columnEnd rowEnd fuel
        (mvRow + stepH) offset p.1 p.2
    else p

/-- One extra temporal corner/edge sample of section 7.10.2.5. -/
def TemporalScanCornerSample (block : Block) (rowStart columnStart : Nat)
    (deltaRow deltaColumn sampleOffset : Int)
    (cands : List (MotionVector × Int)) : List (MotionVector × Int) :=
  if IsWithinTheSame64x64Block block deltaRow deltaColumn then
    let mvRow := (rowStart : Int) + deltaRow
    let mvColumn := (columnStart : Int) + deltaColumn
    if block.tile.isBottomRightInside mvRow mvColumn then
      let temporalMv := block.tile.motionFieldMv sampleOffset
      if temporalMv.mv0 ≠ kInvalidMvValue then
        cands ++ [(temporalMv, block.tile.motionFieldReferenceOffset sampleOffset)]
      else cands
    else cands
  else cands

/-- The three extra corner/edge samples taken for the eligible block
sizes of `kTemporalScanMask`. -/
def TemporalScanCorners (block : Block) (rowStart columnStart : Nat)
    (cands : List (MotionVector × Int)) : List (MotionVector × Int) :=
  if kTemporalScanMaskContains block.size then
    let stride : Int := (block.tile.motionFieldStride : Int)
    let offset0 := stride * (((rowStart + block.height4x4) >>> 1 : Nat) : Int) +
      sar ((columnStart : Int) - 2) 1
    let offset1 := offset0 + (((block.width4x4 + 2) >>> 1 : Nat) : Int)
    let offset2 := offset1 - stride
    let cands := TemporalScanCornerSample block rowStart columnStart
      (block.height4x4 : Int) (-2) offset0 cands
    let cands := TemporalScanCornerSample block rowStart columnStart
      (block.height4x4 : Int) (block.width4x4 : Int) offset1 cands
    TemporalScanCornerSample block rowStart columnStart
      ((block.height4x4 : Int) - 2) (block.width4x4 : Int) offset2 cands
  else cands

/-- The collection phase of section 7.10.2.5: the grid scan (which may
set the zero-MV context at the first position) followed by the corner
samples; returns the updated context and the candidate list in scan
order. -/
def TemporalScanCollect (block : Block) (zeroMvContext : Int) :
    Int × List (MotionVector × Int) :=
  let stepW := if 16 ≤ block.width4x4 then 4 else 2
  let stepH := if 16 ≤ block.height4x4 then 4 else 2
  let rowStart := block.row4x4 ||| 1
  let columnStart := block.column4x4 ||| 1
  let rowEnd := rowStart + min block.height4x4 16
  let columnEnd := columnStart + min block.width4x4 16
  let tile := block.tile
  let offset0 : Int := (tile.motionFieldStride : Int) * ((rowStart >>> 1 : Nat) : Int)
  let p := TemporalScanRowLoop tile rowStart columnStart stepW stepH columnEnd rowEnd
    ((rowEnd - rowStart) + 1) rowStart offset0 zeroMvContext []
  (p.1, TemporalScanCorners block rowStart columnStart p.2)

/-- The relative frame distance of the block's first reference, as
computed at the end of section 7.10.2.5. -/
def temporalReferenceOffsetFst (block : Block) : Int :=
  GetRelativeDistance block.tile.frameHeader.orderHint
    (block.tile.currentFrameOrderHint block.bp.referenceFrame0) block.tile.orderHintShiftBits

/-- The relative frame distance of the block's second reference (only
read in compound mode). -/
def temporalReferenceOffsetSnd (block : Block) (isCompound : Bool) : Int :=
  if isCompound then
    GetRelativeDistance block.tile.frameHeader.orderHint
      (block.tile.currentFrameOrderHint block.bp.referenceFrame1) block.tile.orderHintShiftBits
  else 0

/-- Section 7.10.2.5, `TemporalScan`: sample the temporal motion field on
the block grid plus corner samples, then insert the collected candidates. -/
def TemporalScan (block : Block) (isCompound : Bool) (zeroMvContext : Int)
    (numMvFound : Nat) (pp : PredictionParameters) : TemporalOut :=
  let c := TemporalScanCollect block zeroMvContext
  let cands := c.2
  if cands.isEmpty then ⟨c.1, numMvFound, pp⟩
  else
    AddTemporalReferenceMvCandidate block.tile.frameHeader
      (temporalReferenceOffsetFst block, temporalReferenceOffsetSnd block isCompound)
      cands isCompound ⟨c.1, numMvFound, pp⟩

/-- Accumulators of part of section 7.10.2.13: same-reference matches and
sign-adjusted cross-reference differences, per reference slot, two each. -/
structure ExtraCompoundAcc where
  refId0 : List MotionVector
  refId1 : List MotionVector
  refDiff0 : List MotionVector
  refDiff1 : List MotionVector
deriving DecidableEq

/-- One reference-slot update (`j` loop body) of
`AddExtraCompoundMvCandidate` for candidate direction `i`. -/
def addExtraCompoundSlot (signBias : Int → Bool) (blockReferenceFrame : Int)
    (candidateReferenceFrame : Int) (candidateMvIn : MotionVector)
    (refId refDiff : List MotionVector) : List MotionVector × List MotionVector :=
  if candidateReferenceFrame = blockReferenceFrame ∧ refId.length < 2 then
    (refId ++ [candidateMvIn], refDiff)
  else if refDiff.length < 2 then
    let candidateMv :=
      if signBias candidateReferenceFrame ≠ signBias blockReferenceFrame then
        ⟨-candidateMvIn.mv0, -candidateMvIn.mv1⟩
      else candidateMvIn
    (refId, refDiff ++ [candidateMv])
  else (refId, refDiff)

/-- The `i` loop body of `AddExtraCompoundMvCandidate`: skip none/intra
references, then update both reference slots. -/
def addExtraCompoundOne (signBias : Int → Bool) (blockReferenceFrame0 blockReferenceFrame1 : Int)
    (candidateReferenceFrame : Int) (candidateMvIn : MotionVector)
    (acc : ExtraCompoundAcc) : ExtraCompoundAcc :=
  if candidateReferenceFrame ≤ kReferenceFrameIntra then acc
  else
    let p0 := addExtraCompoundSlot signBias blockReferenceFrame0 candidateReferenceFrame
      candidateMvIn acc.refId0 acc.refDiff0
    let p1 := addExtraCompoundSlot signBias blockReferenceFrame1 candidateReferenceFrame
      candidateMvIn acc.refId1 acc.refDiff1
    ⟨p0.1, p1.1, p0.2, p1.2⟩

/-- Part of section 7.10.2.13, `AddExtraCompoundMvCandidate`. -/
def AddExtraCompoundMvCandidate (block : Block) (mvRow mvColumn : Int)
    (acc : ExtraCompoundAcc) : ExtraCompoundAcc :=
  let bp := block.tile.parameters mvRow mvColumn
  let signBias := block.tile.referenceFrameSignBias
  let acc := addExtraCompoundOne signBias block.bp.referenceFrame0 block.bp.referenceFrame1
    bp.referenceFrame0 bp.mv.mv0 acc
  addExtraCompoundOne signBias block.bp.referenceFrame0 block.bp.referenceFrame1
    bp.referenceFrame1 bp.mv.mv1 acc

/-- One candidate direction of part of section 7.10.2.13,
`AddExtraSingleMvCandidate`: sign-adjusted insert of a distinct value
into a stack of fewer than two entries. -/
def addExtraSingleOne (signBias : Int → Bool) (blockReferenceFrame : Int)
    (candidateReferenceFrame : Int) (candidateMvIn : MotionVector)
    (numMvFound : Nat) (pp : PredictionParameters) : Nat × PredictionParameters :=
  if candidateReferenceFrame ≤ kReferenceFrameIntra then (numMvFound, pp)
  else
    let candidateMv :=
      if signBias candidateReferenceFrame ≠ signBias blockReferenceFrame then
        ⟨-candidateMvIn.mv0, -candidateMvIn.mv1⟩
      else candidateMvIn
    if (numMvFound ≠ 0 ∧ pp.refMvStack.getD 0 MotionVector.zero = candidateMv) ∨
        (numMvFound = 2 ∧ pp.refMvStack.getD 1 MotionVector.zero = candidateMv) then
      (numMvFound, pp)
    else
      let pp := { pp with refMvStack := pp.refMvStack.take numMvFound ++ [candidateMv] }
      let pp := pp.SetWeightIndexStackEntry numMvFound 0
      (numMvFound + 1, pp)

/-- Part of section 7.10.2.13, `AddExtraSingleMvCandidate` (the two
candidate directions unrolled). -/
def AddExtraSingleMvCandidate (block : Block) (mvRow mvColumn : Int)
    (numMvFound : Nat) (pp : PredictionParameters) : Nat × PredictionParameters :=
  let bp := block.tile.parameters mvRow mvColumn
  let signBias := block.tile.referenceFrameSignBias
  let p := addExtraSingleOne signBias block.bp.referenceFrame0 bp.referenceFrame0
    bp.mv.mv0 numMvFound pp
  addExtraSingleOne signBias block.bp.referenceFrame0 bp.referenceFrame1
    bp.mv.mv1 p.1 p.2

/-- One pass (above row or left column) of section 7.10.2.12,
`ExtraSearch`: walk up to `num4x4` units, breaking at the tile boundary
or, in single-prediction mode, once two candidates exist. -/
def ExtraSearchPassLoop (block : Block) (isCompound : Bool) (pass : Nat) (num4x4 : Int)
    (fuel : Nat) (i : Int) (numMvFound : Nat) (pp : PredictionParameters)
    (acc : ExtraCompoundAcc) : Nat × PredictionParameters × ExtraCompoundAcc :=
  match fuel with
  | 0 => (numMvFound, pp, acc)
  | fuel + 1 =>
    if i < num4x4 then
      let mvRow := (block.row4x4 : Int) + (if pass = 0 then -1 else i)
      let mvColumn := (block.column4x4 : Int) + (if pass = 0 then i else -1)
      if block.tile.isTopLeftInside (mvRow + 1) (mvColumn + 1) then
        if isCompound then
          let acc := AddExtraCompoundMvCandidate block mvRow mvColumn acc
          let bp := block.tile.parameters mvRow mvColumn
          let step := if pass = 0 then kNum4x4BlocksWide bp.size else kNum4x4BlocksHigh bp.size
          ExtraSearchPassLoop block isCompound pass num4x4 fuel (i + (step : Int)) numMvFound pp acc
        else
          let p := AddExtraSingleMvCandidate block mvRow mvColumn numMvFound pp
          if 2 ≤ p.1 then (p.1, p.2, acc)
          else
            let bp := block.tile.parameters mvRow mvColumn
            let step := if pass = 0 then kNum4x4BlocksWide bp.size else kNum4x4BlocksHigh bp.size
            ExtraSearchPassLoop block isCompound pass num4x4 fuel (i + (step : Int)) p.1 p.2 acc
      else (numMvFound, pp, acc)
    else (numMvFound, pp, acc)

/-- Section 7.10.2.12, `ExtraSearch`: gather extra candidates from the
above row and left column, then fill the stack up to two entries (merged
synthesized compound vectors, or the global MV for single prediction),
all with weight 0.  Only the compound branch sets the candidate count to
2; the single-prediction filler loop writes the stack slots without
updating the count. -/
def ExtraSearch (block : Block) (isCompound : Bool) (numMvFound : Nat)
    (pp : PredictionParameters) : Nat × PredictionParameters :=
  let tile := block.tile
  let num4x4 : Int :=
    min (min (min (block.width4x4 : Int) (tile.frameHeader.columns4x4 - (block.column4x4 : Int)))
        (min (block.height4x4 : Int) (tile.frameHeader.rows4x4 - (block.row4x4 : Int)))) 16
  let acc0 : ExtraCompoundAcc := ⟨[], [], [], []⟩
  let s0 : Nat × PredictionParameters × ExtraCompoundAcc := (numMvFound, pp, acc0)
  let s1 :=
    if s0.1 < 2 then
      ExtraSearchPassLoop block isCompound 0 num4x4 (num4x4.toNat + 1) 0 s0.1 s0.2.1 s0.2.2
    else s0
  let s2 :=
    if s1.1 < 2 then
      ExtraSearchPassLoop block isCompound 1 num4x4 (num4x4.toNat + 1) 0 s1.1 s1.2.1 s1.2.2
    else s1
  let numMvFound := s2.1
  let pp := s2.2.1
  let acc := s2.2.2
  if isCompound then
    let comp0 := acc.refId0 ++ acc.refDiff0 ++ [pp.globalMv0, pp.globalMv0]
    let comp1 := acc.refId1 ++ acc.refDiff1 ++ [pp.globalMv1, pp.globalMv1]
    let combined0 : CompoundMotionVector :=
      ⟨comp0.getD 0 MotionVector.zero, comp1.getD 0 MotionVector.zero⟩
    let combined1 : CompoundMotionVector :=
      ⟨comp0.getD 1 MotionVector.zero, comp1.getD 1 MotionVector.zero⟩
    if numMvFound = 1 then
      let entry :=
        if combined0 = pp.compoundRefMvStack.getD 0 CompoundMotionVector.zero then combined1
        else combined0
      let pp := { pp with compoundRefMvStack := pp.compoundRefMvStack.take 1 ++ [entry] }
      let pp := pp.SetWeightIndexStackEntry 1 0
      (2, pp)
    else
      let pp := { pp with compoundRefMvStack := pp.compoundRefMvStack.take 0 ++ [combined0] }
      let pp := pp.SetWeightIndexStackEntry 0 0
      let pp := { pp with compoundRefMvStack := pp.compoundRefMvStack.take 1 ++ [combined1] }
      let pp := pp.SetWeightIndexStackEntry 1 0
      (2, pp)
  else
    let pp2 :=
      if numMvFound < 2 then
        let pp1 := ({ pp with
            refMvStack := pp.refMvStack.take numMvFound ++ [pp.globalMv0]
          }).SetWeightIndexStackEntry numMvFound 0
        if numMvFound + 1 < 2 then
          ({ pp1 with
              refMvStack := pp1.refMvStack.take (numMvFound + 1) ++ [pp1.globalMv0]
            }).SetWeightIndexStackEntry (numMvFound + 1) 0
        else pp1
      else pp
    (numMvFound, pp2)

/-- Conditional swap into descending order. -/
def DescendingOrderTwo (a b : Int) : Int × Int := if a < b then (b, a) else (a, b)

/-- Stable descending sort by weight, the order mandated by section
7.10.2.11 (insertion sort; on integer values any comparison sort in
descending order produces this same list). -/
def stableSortDescending (l : List Int) : List Int :=
  List.insertionSort (fun a b => a ≥ b) l

/-- The source's `SortWeightIndexStack`: sorts the first `size` entries
in descending order, with a specialized network for sizes up to 3 and a
general comparison sort (`std::sort` with a strict greater-than
comparator) above that; the remaining entries are untouched. -/
def SortWeightIndexStack (size : Nat) (l : List Int) : List Int :=
  if size ≤ 1 then l
  else if size = 2 then
    match l with
    | a :: b :: rest =>
      let p := DescendingOrderTwo a b
      p.1 :: p.2 :: rest
    | _ => l
  else if size = 3 then
    match l with
    | a :: b :: c :: rest =>
      let p0 := DescendingOrderTwo a b
      let p1 := DescendingOrderTwo p0.2 c
      let p2 := DescendingOrderTwo p0.1 p1.1
      p2.1 :: p2.2 :: p1.2 :: rest
    | _ => l
  else stableSortDescending (l.take size) ++ l.drop size

/-- Section 7.10.2.14 (part 2), `ComputeContexts`: the new-MV and
reference-MV context indices from the match counts. -/
def ComputeContexts (foundNewMv : Bool) (nearestMatches totalMatches : Int) : Int × Int :=
  if nearestMatches = 0 then (min totalMatches 1, totalMatches)
  else if nearestMatches = 1 then
    (3 - (if foundNewMv then (1 : Int) else 0), 2 + totalMatches)
  else (5 - (if foundNewMv then (1 : Int) else 0), 5)

/-- State threaded through the warp-sample collection. -/
structure WarpSampleState where
  numWarpSamples : Nat
  numSamplesScanned : Nat
  candidates : List (Int × Int × Int × Int)
deriving DecidableEq

/-- Section 7.10.4.2, `AddSample`: validate one neighbor sample against
the block-size-dependent motion threshold and record it.  An invalid
sample is dropped unless it is the very first scanned one, and only a
valid sample advances the valid count. -/
def AddSample (block : Block) (deltaRow deltaColumn : Int) (s : WarpSampleState) :
    WarpSampleState :=
  if kMaxLeastSquaresSamples ≤ s.numSamplesScanned then s
  else
    let mvRow := (block.row4x4 : Int) + deltaRow
    let mvColumn := (block.column4x4 : Int) + deltaColumn
    let tile := block.tile
    if tile.isInside mvRow mvColumn && tile.hasParameters mvRow mvColumn then
      let bp := block.bp
      let mvBp := tile.parameters mvRow mvColumn
      if mvBp.referenceFrame0 ≠ bp.referenceFrame0 ∨
          mvBp.referenceFrame1 ≠ kReferenceFrameNone then s
      else
        let numSamplesScanned := s.numSamplesScanned + 1
        let candidateHeight4x4 := kNum4x4BlocksHigh mvBp.size
        let candidateRow := mvRow - mvRow % (candidateHeight4x4 : Int)
        let candidateWidth4x4 := kNum4x4BlocksWide mvBp.size
        let candidateColumn := mvColumn - mvColumn % (candidateWidth4x4 : Int)
        let candidateBp := tile.parameters candidateRow candidateColumn
        let mvDiffRow := |candidateBp.mv.mv0.mv0 - bp.mv.mv0.mv0|
        let mvDiffColumn := |candidateBp.mv.mv0.mv1 - bp.mv.mv0.mv1|
        let isValid := mvDiffRow + mvDiffColumn ≤ kWarpValidThreshold block.size
        if ¬isValid ∧ 1 < numSamplesScanned then
          { s with numSamplesScanned := numSamplesScanned }
        else
          let midY := 4 * candidateRow + 2 * (candidateHeight4x4 : Int) - 1
          let midX := 4 * candidateColumn + 2 * (candidateWidth4x4 : Int) - 1
          let entry := (8 * midY, 8 * midX, 8 * midY + candidateBp.mv.mv0.mv0,
            8 * midX + candidateBp.mv.mv0.mv1)
          let candidates := s.candidates.take s.numWarpSamples ++ [entry]
          if isValid then
            ⟨s.numWarpSamples + 1, numSamplesScanned, candidates⟩
          else
            ⟨s.numWarpSamples, numSamplesScanned, candidates⟩
    else s

/-- The above-row walk of `FindWarpSamples`, stepping by each neighbor's
clipped width. -/
def FindWarpSamplesRowLoop (block : Block) (bound : Int) (fuel : Nat) (i : Int)
    (s : WarpSampleState) : WarpSampleState :=
  match fuel with
  | 0 => s
  | fuel + 1 =>
    if i < bound then
      let sourceSize := (block.tile.parameters ((block.row4x4 : Int) - 1)
        ((block.column4x4 : Int) + i)).size
      let step := min block.width4x4 (kNum4x4BlocksWide sourceSize)
      let s := AddSample block (-1) i s
      FindWarpSamplesRowLoop block bound fuel (i + (step : Int)) s
    else s

/-- The left-column walk of `FindWarpSamples`, stepping by each
neighbor's clipped height. -/
def FindWarpSamplesColumnLoop (block : Block) (bound : Int) (fuel : Nat) (i : Int)
    (s : WarpSampleState) : WarpSampleState :=
  match fuel with
  | 0 => s
  | fuel + 1 =>
    if i < bound then
      let sourceSize := (block.tile.parameters ((block.row4x4 : Int) + i)
        ((block.column4x4 : Int) - 1)).size
      let step := min block.height4x4 (kNum4x4BlocksHigh sourceSize)
      let s := AddSample block i (-1) s
      FindWarpSamplesColumnLoop block bound fuel (i + (step : Int)) s
    else s

/-- The scan phase of `FindWarpSamples`: above row, left column, and the
two corner probes, tracking whether the corners were already covered. -/
def FindWarpSamplesScan (block : Block) (s : WarpSampleState) :
    WarpSampleState :=
  let tile := block.tile
  let top :=
    if block.topAvailableY then
      let sourceSize := (tile.parameters ((block.row4x4 : Int) - 1) (block.column4x4 : Int)).size
      let sourceWidth4x4 := kNum4x4BlocksWide sourceSize
      if block.width4x4 ≤ sourceWidth4x4 then
        let columnOffset : Int := -((block.column4x4 &&& (sourceWidth4x4 - 1) : Nat) : Int)
        let topLeft := !decide (columnOffset < 0)
        let topRight := !decide ((block.width4x4 : Int) < columnOffset + (sourceWidth4x4 : Int))
        (topLeft, topRight, AddSample block (-1) 0 s)
      else
        let bound : Int :=
          min (block.width4x4 : Int) (tile.frameHeader.columns4x4 - (block.column4x4 : Int))
        (true, true, FindWarpSamplesRowLoop block bound (bound.toNat + 1) 0 s)
    else (true, true, s)
  let topLeft0 := top.1
  let topRight := top.2.1
  let s := top.2.2
  let left :=
    if block.leftAvailableY then
      let sourceSize := (tile.parameters (block.row4x4 : Int) ((block.column4x4 : Int) - 1)).size
      let sourceHeight4x4 := kNum4x4BlocksHigh sourceSize
      if block.height4x4 ≤ sourceHeight4x4 then
        let rowOffset : Int := -((block.row4x4 &&& (sourceHeight4x4 - 1) : Nat) : Int)
        let topLeft := topLeft0 && !decide (rowOffset < 0)
        (topLeft, AddSample block 0 (-1) s)
      else
        let bound : Int :=
          min (block.height4x4 : Int) (tile.frameHeader.rows4x4 - (block.row4x4 : Int))
        (topLeft0, FindWarpSamplesColumnLoop block bound (bound.toNat + 1) 0 s)
    else (topLeft0, s)
  let topLeft := left.1
  let s := left.2
  let s := if topLeft then AddSample block (-1) (-1) s else s
  if topRight && decide (block.size ≤ kBlock64x64) then
    AddSample block (-1) (block.width4x4 : Int) s
  else s

/-- Section 7.10.4, `FindWarpSamples`: the scans followed by the
degenerate single-sample fixup. -/
def FindWarpSamples (block : Block) (s : WarpSampleState) : WarpSampleState :=
  let s := FindWarpSamplesScan block s
  if s.numWarpSamples = 0 ∧ 0 < s.numSamplesScanned then { s with numWarpSamples := 1 }
  else s

/-- The source reference frame consulted by section 7.9.2: the reference
buffer selected by `frame_header.reference_frame_index[source - kReferenceFrameLast]`. -/
def MotionFieldProjectionSourceFrame (fh : ObuFrameHeader) (referenceFrames : List RefFrame)
    (source : Int) : RefFrame :=
  let sourceIndex := fh.referenceFrameIndex.getD (source - kReferenceFrameLast).toNat 0
  referenceFrames.getD sourceIndex ⟨0, 0, kFrameKey⟩

/-- Section 7.9.2, `MotionFieldProjection`: skip (returning false) on a
dimension mismatch or an intra source; report success but stay clear of
the kernel when the relative distance exceeds `kMaxFrameDistance`;
otherwise run the projection kernel.  The dsp kernel lives outside the
excerpt, so it is abstracted as a function argument. -/
def MotionFieldProjection (fh : ObuFrameHeader) (referenceFrames : List RefFrame)
    (source : Int) (referenceToCurrentWithSign : Int)
    (kernel : TemporalMotionField → TemporalMotionField)
    (motionField : TemporalMotionField) : Bool × TemporalMotionField :=
  let sourceFrame := MotionFieldProjectionSourceFrame fh referenceFrames source
  if sourceFrame.rows4x4 ≠ fh.rows4x4 ∨ sourceFrame.columns4x4 ≠ fh.columns4x4 ∨
      IsIntraFrame sourceFrame.frameType then
    (false, motionField)
  else if kMaxFrameDistance < referenceToCurrentWithSign then (true, motionField)
  else (true, kernel motionField)

/-- State of `FindMvStack` after all scans, before the fallback/sort
phase. -/
structure FindMvStackScanOut where
  foundNewMv : Bool
  foundRowMatch : Bool
  foundColumnMatch : Bool
  nearestMatches : Int
  zeroMv : Int
  numMvFound : Nat
  pp : PredictionParameters
deriving DecidableEq

/-- The nearest-candidate phase of section 7.10.2, `FindMvStack`:
global MV setup and the first row/column/point scans.  Returns the
resulting state (whose `foundMatch` is the row-match flag) paired with
the column-match flag. -/
def FindMvStackInitialPredictionParameters (block : Block) (isCompound : Bool) :
    PredictionParameters :=
  ⟨SetupGlobalMv block 0, if isCompound then SetupGlobalMv block 1 else MotionVector.zero,
    [], [], [], 0, 0⟩

def FindMvStackNearest (block : Block) (isCompound : Bool) : ScanOut × Bool :=
  let pp := FindMvStackInitialPredictionParameters block isCompound
  let s := ScanRow block (block.column4x4 : Int) (-1) isCompound ⟨false, false, 0, pp⟩
  let foundRowMatch := s.foundMatch
  let s := ScanColumn block (block.row4x4 : Int) (-1) isCompound
    ⟨s.foundNewMv, false, s.numMvFound, s.pp⟩
  let foundColumnMatch := s.foundMatch
  let s :=
    if max block.width4x4 block.height4x4 ≤ 16 then
      ScanPoint block (-1) (block.width4x4 : Int) isCompound
        ⟨s.foundNewMv, foundRowMatch, s.numMvFound, s.pp⟩
    else ⟨s.foundNewMv, foundRowMatch, s.numMvFound, s.pp⟩
  (s, foundColumnMatch)

/-- The later scans of section 7.10.2, `FindMvStack`: the outer point
scan and the extra row/column offsets at -3 and -5, all fed the source's
`dummy_bool` in place of `found_new_mv`.  Returns the final row-match
and column-match flags, the candidate count and the prediction
parameters. -/
def FindMvStackLaterScans (block : Block) (isCompound : Bool)
    (foundRowMatch foundColumnMatch : Bool) (numMvFound : Nat)
    (pp : PredictionParameters) : Bool × Bool × Nat × PredictionParameters :=
  let s := ScanPoint block (-1) (-1) isCompound ⟨false, foundRowMatch, numMvFound, pp⟩
  let foundRowMatch := s.foundMatch
  let s := ScanRow block ((block.column4x4 ||| 1 : Nat) : Int)
    (-3 + ((block.row4x4 &&& 1 : Nat) : Int)) isCompound
    ⟨s.foundNewMv, foundRowMatch, s.numMvFound, s.pp⟩
  let foundRowMatch := s.foundMatch
  let s := ScanColumn block ((block.row4x4 ||| 1 : Nat) : Int)
    (-3 + ((block.column4x4 &&& 1 : Nat) : Int)) isCompound
    ⟨s.foundNewMv, foundColumnMatch, s.numMvFound, s.pp⟩
  let foundColumnMatch := s.foundMatch
  let s :=
    if 1 < block.height4x4 then
      ScanRow block ((block.column4x4 ||| 1 : Nat) : Int)
        (-5 + ((block.row4x4 &&& 1 : Nat) : Int)) isCompound
        ⟨s.foundNewMv, foundRowMatch, s.numMvFound, s.pp⟩
    else ⟨s.foundNewMv, foundRowMatch, s.numMvFound, s.pp⟩
  let foundRowMatch := s.foundMatch
  let s :=
    if 1 < block.width4x4 then
      ScanColumn block ((block.row4x4 ||| 1 : Nat) : Int)
        (-5 + ((block.column4x4 &&& 1 : Nat) : Int)) isCompound
        ⟨s.foundNewMv, foundColumnMatch, s.numMvFound, s.pp⟩
    else ⟨s.foundNewMv, foundColumnMatch, s.numMvFound, s.pp⟩
  (foundRowMatch, s.foundMatch, s.numMvFound, s.pp)

/-- The scan phase of section 7.10.2, `FindMvStack`: the nearest scans,
the nearest-count record, the temporal scan (or the forced zero MV
context), then the later scans. -/
def FindMvStackScan (block : Block) (isCompound : Bool) : FindMvStackScanOut :=
  let n := FindMvStackNearest block isCompound
  let s := n.1
  let foundRowMatch := s.foundMatch
  let foundColumnMatch := n.2
  let foundNewMv := s.foundNewMv
  let nearestMatches : Int :=
    (if foundRowMatch then 1 else 0) + (if foundColumnMatch then 1 else 0)
  let pp := { s.pp with nearestMvCount := s.numMvFound }
  let afterTemporal :=
    if block.tile.frameHeader.useRefFrameMvs then
      let t := TemporalScan block isCompound (-1) s.numMvFound pp
      (t.zeroMvContext, t.numMvFound, t.pp)
    else ((0 : Int), s.numMvFound, pp)
  let zeroMv := afterTemporal.1
  let later := FindMvStackLaterScans block isCompound foundRowMatch foundColumnMatch
    afterTemporal.2.1 afterTemporal.2.2
  ⟨foundNewMv, later.1, later.2.1, nearestMatches, zeroMv, later.2.2.1, later.2.2.2⟩

/-- Section 7.10.2, `FindMvStack`: the scan phase followed by either the
extra-search fallback (fewer than two candidates) or the two segmented
weight sorts, then the context computation. -/
def FindMvStack (block : Block) (isCompound : Bool) : PredictionParameters × MvContexts :=
  let r := FindMvStackScan block isCompound
  let post :=
    if r.numMvFound < 2 then ExtraSearch block isCompound r.numMvFound r.pp
    else
      let w1 := SortWeightIndexStack r.pp.nearestMvCount r.pp.weightIndexStack
      let w2 :=
        if r.pp.nearestMvCount < 4 then
          w1.take r.pp.nearestMvCount ++
            SortWeightIndexStack (r.numMvFound - r.pp.nearestMvCount)
              (w1.drop r.pp.nearestMvCount)
        else w1
      (r.numMvFound, { r.pp with weightIndexStack := w2 })
  let pp := { post.2 with refMvCount := post.1 }
  let totalMatches : Int :=
    (if r.foundRowMatch then 1 else 0) + (if r.foundColumnMatch then 1 else 0)
  let ctx := ComputeContexts r.foundNewMv r.nearestMatches totalMatches
  (pp, ⟨ctx.1, ctx.2, r.zeroMv⟩)

/-- One abstract candidate insertion performed by the scans: a spatial
neighbor insertion (`SearchStack` / `CompoundSearchStack`) or one
temporal candidate of `AddTemporalReferenceMvCandidate`. -/
inductive CandidateInsertion where
  | spatial (mvBp : BlockParameters) (index : Nat) (weight : Int)
  | temporal (temporalMv : MotionVector) (temporalReferenceOffset : Int)

/-- State threaded through a sequence of candidate insertions. -/
structure InsertionState where
  foundNewMv : Bool
  foundMatch : Bool
  zeroMvContext : Int
  numMvFound : Nat
  pp : PredictionParameters
deriving DecidableEq

/-- Apply one insertion in single-prediction mode. -/
def applySingleInsertion (block : Block) (referenceOffset0 : Int) (s : InsertionState)
    (ins : CandidateInsertion) : InsertionState :=
  match ins with
  | .spatial mvBp index weight =>
    let o := SearchStack block mvBp index weight s.foundNewMv s.foundMatch s.numMvFound s.pp
    ⟨o.foundNewMv, o.foundMatch, s.zeroMvContext, o.numMvFound, o.pp⟩
  | .temporal temporalMv temporalReferenceOffset =>
    let o := AddTemporalSingleStep block.tile.frameHeader referenceOffset0
      ⟨s.zeroMvContext, s.numMvFound, s.pp⟩ (temporalMv, temporalReferenceOffset)
    ⟨s.foundNewMv, s.foundMatch, o.zeroMvContext, o.numMvFound, o.pp⟩

/-- Apply a sequence of insertions in single-prediction mode. -/
def applySingleInsertions (block : Block) (referenceOffset0 : Int) (s : InsertionState)
    (ops : List CandidateInsertion) : InsertionState :=
  ops.foldl (applySingleInsertion block referenceOffset0) s

/-- Apply one insertion in compound mode. -/
def applyCompoundInsertion (block : Block) (referenceOffsets : Int × Int) (s : InsertionState)
    (ins : CandidateInsertion) : InsertionState :=
  match ins with
  | .spatial mvBp _ weight =>
    let o := CompoundSearchStack block mvBp weight s.foundNewMv s.foundMatch s.numMvFound s.pp
    ⟨o.foundNewMv, o.foundMatch, s.zeroMvContext, o.numMvFound, o.pp⟩
  | .temporal temporalMv temporalReferenceOffset =>
    let o := AddTemporalCompoundStep block.tile.frameHeader referenceOffsets.1
      referenceOffsets.2 ⟨s.zeroMvContext, s.numMvFound, s.pp⟩
      (temporalMv, temporalReferenceOffset)
    ⟨s.foundNewMv, s.foundMatch, o.zeroMvContext, o.numMvFound, o.pp⟩

/-- Apply a sequence of insertions in compound mode. -/
def applyCompoundInsertions (block : Block) (referenceOffsets : Int × Int) (s : InsertionState)
    (ops : List CandidateInsertion) : InsertionState :=
  ops.foldl (applyCompoundInsertion block referenceOffsets) s

/-- The rounding rule exactly as the specification states it for the
integer-only case: `(|v| + 3) & ~7` with the original sign reapplied
(no storage conversion). -/
def claimedForceIntegerRounding (v : Int) : Int :=
  let t : Int := (v.natAbs : Int) + 3
  ApplySign (t - t % 8) (if v < 0 then -1 else 0)

/-- How one scan stage relates the candidate count and prediction
parameters before and after: the weight array stays in sync with the
count, the count never decreases, and the nearest-candidate count field
is untouched. -/
def StackAdvance (num : Nat) (pp : PredictionParameters) (numAfter : Nat)
    (ppAfter : PredictionParameters) : Prop :=
  (pp.weightIndexStack.length = num → ppAfter.weightIndexStack.length = numAfter) ∧
  num ≤ numAfter ∧ ppAfter.nearestMvCount = pp.nearestMvCount

/-- Wellformedness of a single-prediction insertion state: both per-entry
arrays are in sync with the count, and entries are pairwise distinct. -/
def SingleStateInv (s : InsertionState) : Prop :=
  s.pp.refMvStack.length = s.numMvFound ∧
  s.pp.weightIndexStack.length = s.numMvFound ∧
  s.pp.refMvStack.Pairwise (· ≠ ·)

/-- Wellformedness of a compound insertion state. -/
def CompoundStateInv (s : InsertionState) : Prop :=
  s.pp.compoundRefMvStack.length = s.numMvFound ∧
  s.pp.weightIndexStack.length = s.numMvFound ∧
  s.pp.compoundRefMvStack.Pairwise (· ≠ ·)

/-! Concrete instances used by the witnesses. -/

/-- A tile in which no neighbor position is available in any direction. -/
def tileNoNeighbors : Tile :=
  { frameHeader :=
      { allowHighPrecisionMv := false, forceIntegerMv := 0, useRefFrameMvs := false,
        globalMotion := [⟨0, []⟩, ⟨2, [100, 200, 65536 + 3000, 77, -55, 65536 - 4000]⟩],
        columns4x4 := 16, rows4x4 := 16, orderHint := 0, referenceFrameIndex := [0] }
    isTopInside := fun _ => false
    isLeftInside := fun _ => false
    isInside := fun _ _ => false
    isTopLeftInside := fun _ _ => false
    isBottomRightInside := fun _ _ => false
    hasParameters := fun _ _ => false
    parameters := fun _ _ => ⟨0, 1, -1, CompoundMotionVector.zero, false, false, 0⟩
    motionFieldMv := fun _ => MotionVector.zero
    motionFieldReferenceOffset := fun _ => 0
    motionFieldStride := 8
    referenceFrameSignBias := fun _ => false
    currentFrameOrderHint := fun _ => 0
    orderHintShiftBits := 0 }

/-- An 8x8 inter block of `tileNoNeighbors` predicting from the last
reference frame, whose frame uses a rotation/zoom global model. -/
def blockNoNeighbors : Block :=
  { tile := tileNoNeighbors, row4x4 := 2, column4x4 := 2, size := kBlock8x8,
    bp := ⟨kBlock8x8, 1, -1, CompoundMotionVector.zero, true, false, 0⟩,
    topAvailableY := false, leftAvailableY := false }

/-- Inter neighbor above: distinct motion vector, new-MV mode. -/
def neighborAbove : BlockParameters := ⟨0, 1, -1, ⟨⟨8, 16⟩, ⟨0, 0⟩⟩, true, false, 17⟩

/-- Inter neighbor to the left: another distinct motion vector. -/
def neighborLeft : BlockParameters := ⟨0, 1, -1, ⟨⟨24, -8⟩, ⟨0, 0⟩⟩, true, false, 0⟩

/-- A tile whose only available positions are the single row above and
the single column to the left of a 4x4 block at (1, 1). -/
def tileTwoNeighbors : Tile :=
  { frameHeader :=
      { allowHighPrecisionMv := false, forceIntegerMv := 0, useRefFrameMvs := false,
        globalMotion := [⟨0, []⟩, ⟨0, []⟩],
        columns4x4 := 4, rows4x4 := 4, orderHint := 0, referenceFrameIndex := [0] }
    isTopInside := fun r => decide (1 ≤ r)
    isLeftInside := fun c => decide (1 ≤ c)
    isInside := fun _ _ => false
    isTopLeftInside := fun _ _ => false
    isBottomRightInside := fun _ _ => false
    hasParameters := fun _ _ => false
    parameters := fun r _ => if r = 0 then neighborAbove else neighborLeft
    motionFieldMv := fun _ => MotionVector.zero
    motionFieldReferenceOffset := fun _ => 0
    motionFieldStride := 8
    referenceFrameSignBias := fun _ => false
    currentFrameOrderHint := fun _ => 0
    orderHintShiftBits := 0 }

/-- A 4x4 inter block of `tileTwoNeighbors` at (1, 1): its row and
column scans each find one distinct candidate. -/
def blockTwoNeighbors : Block :=
  { tile := tileTwoNeighbors, row4x4 := 1, column4x4 := 1, size := 0,
    bp := ⟨0, 1, -1, CompoundMotionVector.zero, true, false, 0⟩,
    topAvailableY := false, leftAvailableY := false }

/-- A tile in which only position (0, 0) exists, holding a neighbor
whose motion differs from the block's by far more than the warp
threshold. -/
def tileWarpProbe : Tile :=
  { frameHeader :=
      { allowHighPrecisionMv := false, forceIntegerMv := 0, useRefFrameMvs := false,
        globalMotion := [], columns4x4 := 4, rows4x4 := 4, orderHint := 0,
        referenceFrameIndex := [] }
    isTopInside := fun _ => false
    isLeftInside := fun _ => false
    isInside := fun r c => decide (r = 0 ∧ c = 0)
    isTopLeftInside := fun _ _ => false
    isBottomRightInside := fun _ _ => false
    hasParameters := fun r c => decide (r = 0 ∧ c = 0)
    parameters := fun _ _ => ⟨0, 1, -1, ⟨⟨1000, 0⟩, ⟨0, 0⟩⟩, true, false, 0⟩
    motionFieldMv := fun _ => MotionVector.zero
    motionFieldReferenceOffset := fun _ => 0
    motionFieldStride := 8
    referenceFrameSignBias := fun _ => false
    currentFrameOrderHint := fun _ => 0
    orderHintShiftBits := 0 }

/-- A 4x4 block of `tileWarpProbe` whose only scanned warp sample is
invalid. -/
def blockWarpProbe : Block :=
  { tile := tileWarpProbe, row4x4 := 1, column4x4 := 0, size := 0,
    bp := ⟨0, 1, -1, CompoundMotionVector.zero, true, false, 0⟩,
    topAvailableY := true, leftAvailableY := false }

/-- A tile whose whole temporal motion field holds one valid stored
vector, with every grid position sampled. -/
def tileTemporalProbe : Tile :=
  { frameHeader :=
      { allowHighPrecisionMv := false, forceIntegerMv := 0, useRefFrameMvs := true,
        globalMotion := [⟨0, []⟩, ⟨0, []⟩],
        columns4x4 := 4, rows4x4 := 4, orderHint := 0, referenceFrameIndex := [0] }
    isTopInside := fun _ => true
    isLeftInside := fun _ => true
    isInside := fun _ _ => true
    isTopLeftInside := fun _ _ => true
    isBottomRightInside := fun _ _ => true
    hasParameters := fun _ _ => false
    parameters := fun _ _ => ⟨0, 1, -1, CompoundMotionVector.zero, false, false, 0⟩
    motionFieldMv := fun _ => ⟨100, 0⟩
    motionFieldReferenceOffset := fun _ => 1
    motionFieldStride := 8
    referenceFrameSignBias := fun _ => false
    currentFrameOrderHint := fun _ => 0
    orderHintShiftBits := 0 }

/-- A 4x4 block of `tileTemporalProbe`: its temporal grid is a single
valid sample. -/
def blockTemporalProbe : Block :=
  { tile := tileTemporalProbe, row4x4 := 1, column4x4 := 1, size := 0,
    bp := ⟨0, 1, -1, CompoundMotionVector.zero, true, false, 0⟩,
    topAvailableY := false, leftAvailableY := false }

/-- An empty prediction-parameters record with both global MVs zero. -/
def emptyPredictionParameters : PredictionParameters :=
  ⟨MotionVector.zero, MotionVector.zero, [], [], [], 0, 0⟩

/-! Helper lemmas. -/

theorem wrap16_eq_self (x : Int) (h1 : -(2 ^ 15) ≤ x) (h2 : x < 2 ^ 15) : wrap16 x = x := by
  unfold wrap16
  omega

theorem wrap16_emod_eight (x : Int) (h : x % 8 = 0) : wrap16 x % 8 = 0 := by
  unfold wrap16
  omega

theorem sar_fifteen_int16 (v : Int) (hl : -(2 ^ 15) ≤ v) (hu : v < 2 ^ 15) :
    sar v 15 = if v < 0 then -1 else 0 := by
  unfold sar
  split <;> omega

theorem lowerMvPrecisionForceInteger_mult_eight (v : Int) :
    lowerMvPrecisionForceInteger v % 8 = 0 := by
  unfold lowerMvPrecisionForceInteger ApplySign
  apply wrap16_emod_eight
  split <;> omega

theorem lowerMvPrecisionForceInteger_eq_claimed (v : Int) (hl : -(2 ^ 15) ≤ v)
    (hu : v ≤ 2 ^ 15 - 4) :
    lowerMvPrecisionForceInteger v = claimedForceIntegerRounding v := by
  unfold lowerMvPrecisionForceInteger claimedForceIntegerRounding
  rw [sar_fifteen_int16 v hl (by omega)]
  apply wrap16_eq_self
  case h1 => unfold ApplySign; split <;> split <;> omega
  case h2 => unfold ApplySign; split <;> split <;> omega

theorem findIdx_lt_length_iff_mem {α : Type} [DecidableEq α] (l : List α) (c : α) :
    l.findIdx (fun r => decide (r = c)) < l.length ↔ c ∈ l := by
  induction l with
  | nil => simp
  | cons a t ih =>
    simp only [List.findIdx_cons, List.length_cons, List.mem_cons]
    by_cases hc : a = c
    · simp [hc]
    · have hd : decide (a = c) = false := by simpa using hc
      simp only [hd, cond_false]
      constructor
      · intro h
        exact Or.inr (ih.mp (by omega))
      · rintro (h | h)
        · exact absurd h.symm hc
        · have := ih.mpr h
          omega

theorem searchStack_eq (block : Block) (mvBp : BlockParameters) (index : Nat) (weight : Int)
    (fnm fm : Bool) (num : Nat) (pp : PredictionParameters)
    (h1 : pp.refMvStack.length = num) (h2 : pp.weightIndexStack.length = num) :
    SearchStack block mvBp index weight fnm fm num pp =
      (let c := SearchStackCandidate block mvBp index pp
       let i := pp.refMvStack.findIdx (fun r => decide (r = c))
       let newFlag := fnm || kPredictionModeNewMvMaskContains mvBp.yMode
       if c ∈ pp.refMvStack then ⟨newFlag, true, num, pp.IncreaseWeight i weight⟩
       else if num < kMaxRefMvStackSize then
         ⟨newFlag, true, num + 1,
           { pp with refMvStack := pp.refMvStack ++ [c],
                     weightIndexStack := pp.weightIndexStack ++ [weight] }⟩
       else ⟨newFlag, true, num, pp⟩) := by
  unfold SearchStack PredictionParameters.SetWeightIndexStackEntry
  have ht : pp.refMvStack.take num = pp.refMvStack := by rw [← h1, List.take_length]
  have hw : pp.weightIndexStack.take num = pp.weightIndexStack := by
    rw [← h2, List.take_length]
  simp only [ht, hw]
  by_cases hm : SearchStackCandidate block mvBp index pp ∈ pp.refMvStack
  · rw [if_pos ((findIdx_lt_length_iff_mem _ _).2 hm), if_pos hm]
  · rw [if_neg (fun hlt => hm ((findIdx_lt_length_iff_mem _ _).1 hlt)), if_neg hm]
    by_cases hcap : kMaxRefMvStackSize ≤ num
    · rw [if_pos hcap, if_neg (by omega)]
    · rw [if_neg hcap, if_pos (by omega)]

theorem compoundSearchStack_eq (block : Block) (mvBp : BlockParameters) (weight : Int)
    (fnm fm : Bool) (num : Nat) (pp : PredictionParameters)
    (h1 : pp.compoundRefMvStack.length = num) (h2 : pp.weightIndexStack.length = num) :
    CompoundSearchStack block mvBp weight fnm fm num pp =
      (let c := CompoundSearchStackCandidate block mvBp pp
       let i := pp.compoundRefMvStack.findIdx (fun r => decide (r = c))
       let newFlag := fnm || kPredictionModeNewMvMaskContains mvBp.yMode
       if c ∈ pp.compoundRefMvStack then ⟨newFlag, true, num, pp.IncreaseWeight i weight⟩
       else if num < kMaxRefMvStackSize then
         ⟨newFlag, true, num + 1,
           { pp with compoundRefMvStack := pp.compoundRefMvStack ++ [c],
                     weightIndexStack := pp.weightIndexStack ++ [weight] }⟩
       else ⟨newFlag, true, num, pp⟩) := by
  unfold CompoundSearchStack PredictionParameters.SetWeightIndexStackEntry
  have ht : pp.compoundRefMvStack.take num = pp.compoundRefMvStack := by
    rw [← h1, List.take_length]
  have hw : pp.weightIndexStack.take num = pp.weightIndexStack := by
    rw [← h2, List.take_length]
  simp only [ht, hw]
  by_cases hm : CompoundSearchStackCandidate block mvBp pp ∈ pp.compoundRefMvStack
  · rw [if_pos ((findIdx_lt_length_iff_mem _ _).2 hm), if_pos hm]
  · rw [if_neg (fun hlt => hm ((findIdx_lt_length_iff_mem _ _).1 hlt)), if_neg hm]
    by_cases hcap : kMaxRefMvStackSize ≤ num
    · rw [if_pos hcap, if_neg (by omega)]
    · rw [if_neg hcap, if_pos (by omega)]

theorem addTemporalSingleStep_eq (fh : ObuFrameHeader) (referenceOffset0 : Int)
    (s : TemporalOut) (cand : MotionVector × Int)
    (h1 : s.pp.refMvStack.length = s.numMvFound)
    (h2 : s.pp.weightIndexStack.length = s.numMvFound) :
    AddTemporalSingleStep fh referenceOffset0 s cand =
      (let c := temporalCandidateSingle fh referenceOffset0 cand.1 cand.2
       let i := s.pp.refMvStack.findIdx (fun r => decide (r = c))
       let z :=
         if s.zeroMvContext = -1 then
           if 16 ≤ temporalMaxDifferenceSingle s.pp.globalMv0 c then 1 else 0
         else s.zeroMvContext
       if c ∈ s.pp.refMvStack then ⟨z, s.numMvFound, s.pp.IncreaseWeight i 2⟩
       else if s.numMvFound < kMaxRefMvStackSize then
         ⟨z, s.numMvFound + 1,
           { s.pp with refMvStack := s.pp.refMvStack ++ [c],
                       weightIndexStack := s.pp.weightIndexStack ++ [2] }⟩
       else ⟨z, s.numMvFound, s.pp⟩) := by
  unfold AddTemporalSingleStep PredictionParameters.SetWeightIndexStackEntry
  have ht : s.pp.refMvStack.take s.numMvFound = s.pp.refMvStack := by
    rw [← h1, List.take_length]
  have hw : s.pp.weightIndexStack.take s.numMvFound = s.pp.weightIndexStack := by
    rw [← h2, List.take_length]
  simp only [ht, hw]
  by_cases hm : temporalCandidateSingle fh referenceOffset0 cand.1 cand.2 ∈ s.pp.refMvStack
  · rw [if_pos ((findIdx_lt_length_iff_mem _ _).2 hm), if_pos hm]
  · rw [if_neg (fun hlt => hm ((findIdx_lt_length_iff_mem _ _).1 hlt)), if_neg hm]
    by_cases hcap : kMaxRefMvStackSize ≤ s.numMvFound
    · rw [if_pos hcap, if_neg (show ¬s.numMvFound < kMaxRefMvStackSize by omega)]
    · rw [if_neg hcap, if_pos (show s.numMvFound < kMaxRefMvStackSize by omega)]

theorem addTemporalCompoundStep_eq (fh : ObuFrameHeader) (referenceOffset0 referenceOffset1 : Int)
    (s : TemporalOut) (cand : MotionVector × Int)
    (h1 : s.pp.compoundRefMvStack.length = s.numMvFound)
    (h2 : s.pp.weightIndexStack.length = s.numMvFound) :
    AddTemporalCompoundStep fh referenceOffset0 referenceOffset1 s cand =
      (let c := temporalCandidateCompound fh referenceOffset0 referenceOffset1 cand.1 cand.2
       let i := s.pp.compoundRefMvStack.findIdx (fun r => decide (r = c))
       let z :=
         if s.zeroMvContext = -1 then
           if 16 ≤ temporalMaxDifferenceCompound s.pp.globalMv0 s.pp.globalMv1 c then 1 else 0
         else s.zeroMvContext
       if c ∈ s.pp.compoundRefMvStack then ⟨z, s.numMvFound, s.pp.IncreaseWeight i 2⟩
       else if s.numMvFound < kMaxRefMvStackSize then
         ⟨z, s.numMvFound + 1,
           { s.pp with compoundRefMvStack := s.pp.compoundRefMvStack ++ [c],
                       weightIndexStack := s.pp.weightIndexStack ++ [2] }⟩
       else ⟨z, s.numMvFound, s.pp⟩) := by
  unfold AddTemporalCompoundStep PredictionParameters.SetWeightIndexStackEntry
  have ht : s.pp.compoundRefMvStack.take s.numMvFound = s.pp.compoundRefMvStack := by
    rw [← h1, List.take_length]
  have hw : s.pp.weightIndexStack.take s.numMvFound = s.pp.weightIndexStack := by
    rw [← h2, List.take_length]
  simp only [ht, hw]
  by_cases hm : temporalCandidateCompound fh referenceOffset0 referenceOffset1 cand.1 cand.2
      ∈ s.pp.compoundRefMvStack
  · rw [if_pos ((findIdx_lt_length_iff_mem _ _).2 hm), if_pos hm]
  · rw [if_neg (fun hlt => hm ((findIdx_lt_length_iff_mem _ _).1 hlt)), if_neg hm]
    by_cases hcap : kMaxRefMvStackSize ≤ s.numMvFound
    · rw [if_pos hcap, if_neg (show ¬s.numMvFound < kMaxRefMvStackSize by omega)]
    · rw [if_neg hcap, if_pos (show s.numMvFound < kMaxRefMvStackSize by omega)]

theorem pairwise_ne_append_singleton {α : Type} (l : List α) (c : α)
    (h : l.Pairwise (· ≠ ·)) (hm : c ∉ l) : (l ++ [c]).Pairwise (· ≠ ·) := by
  rw [List.pairwise_append]
  refine ⟨h, by simp, ?_⟩
  intro a ha b hb
  simp only [List.mem_singleton] at hb
  subst hb
  exact fun hac => hm (hac ▸ ha)

theorem applySingleInsertion_inv (block : Block) (referenceOffset0 : Int)
    (s : InsertionState) (ins : CandidateInsertion) (h : SingleStateInv s) :
    SingleStateInv (applySingleInsertion block referenceOffset0 s ins) := by
  obtain ⟨h1, h2, h3⟩ := h
  cases ins with
  | spatial mvBp index weight =>
    simp only [applySingleInsertion]
    rw [searchStack_eq block mvBp index weight s.foundNewMv s.foundMatch s.numMvFound s.pp h1 h2]
    by_cases hm : SearchStackCandidate block mvBp index s.pp ∈ s.pp.refMvStack
    · rw [if_pos hm]
      exact ⟨h1, by simpa [PredictionParameters.IncreaseWeight] using h2, h3⟩
    · by_cases hcap : s.numMvFound < kMaxRefMvStackSize
      · rw [if_neg hm, if_pos hcap]
        exact ⟨by simp [h1], by simp [h2], pairwise_ne_append_singleton _ _ h3 hm⟩
      · rw [if_neg hm, if_neg hcap]
        exact ⟨h1, h2, h3⟩
  | temporal temporalMv temporalReferenceOffset =>
    simp only [applySingleInsertion]
    rw [addTemporalSingleStep_eq block.tile.frameHeader referenceOffset0
      ⟨s.zeroMvContext, s.numMvFound, s.pp⟩ (temporalMv, temporalReferenceOffset) h1 h2]
    by_cases hm : temporalCandidateSingle block.tile.frameHeader referenceOffset0
        temporalMv temporalReferenceOffset ∈ s.pp.refMvStack
    · rw [if_pos hm]
      exact ⟨h1, by simpa [PredictionParameters.IncreaseWeight] using h2, h3⟩
    · by_cases hcap : s.numMvFound < kMaxRefMvStackSize
      · rw [if_neg hm, if_pos hcap]
        exact ⟨by simp [h1], by simp [h2], pairwise_ne_append_singleton _ _ h3 hm⟩
      · rw [if_neg hm, if_neg hcap]
        exact ⟨h1, h2, h3⟩

theorem applyCompoundInsertion_inv (block : Block) (referenceOffsets : Int × Int)
    (s : InsertionState) (ins : CandidateInsertion) (h : CompoundStateInv s) :
    CompoundStateInv (applyCompoundInsertion block referenceOffsets s ins) := by
  obtain ⟨h1, h2, h3⟩ := h
  cases ins with
  | spatial mvBp index weight =>
    simp only [applyCompoundInsertion]
    rw [compoundSearchStack_eq block mvBp weight s.foundNewMv s.foundMatch s.numMvFound s.pp h1 h2]
    by_cases hm : CompoundSearchStackCandidate block mvBp s.pp ∈ s.pp.compoundRefMvStack
    · rw [if_pos hm]
      exact ⟨h1, by simpa [PredictionParameters.IncreaseWeight] using h2, h3⟩
    · by_cases hcap : s.numMvFound < kMaxRefMvStackSize
      · rw [if_neg hm, if_pos hcap]
        exact ⟨by simp [h1], by simp [h2], pairwise_ne_append_singleton _ _ h3 hm⟩
      · rw [if_neg hm, if_neg hcap]
        exact ⟨h1, h2, h3⟩
  | temporal temporalMv temporalReferenceOffset =>
    simp only [applyCompoundInsertion]
    rw [addTemporalCompoundStep_eq block.tile.frameHeader referenceOffsets.1 referenceOffsets.2
      ⟨s.zeroMvContext, s.numMvFound, s.pp⟩ (temporalMv, temporalReferenceOffset) h1 h2]
    by_cases hm : temporalCandidateCompound block.tile.frameHeader referenceOffsets.1
        referenceOffsets.2 temporalMv temporalReferenceOffset ∈ s.pp.compoundRefMvStack
    · rw [if_pos hm]
      exact ⟨h1, by simpa [PredictionParameters.IncreaseWeight] using h2, h3⟩
    · by_cases hcap : s.numMvFound < kMaxRefMvStackSize
      · rw [if_neg hm, if_pos hcap]
        exact ⟨by simp [h1], by simp [h2], pairwise_ne_append_singleton _ _ h3 hm⟩
      · rw [if_neg hm, if_neg hcap]
        exact ⟨h1, h2, h3⟩

theorem applySingleInsertions_inv (block : Block) (referenceOffset0 : Int)
    (ops : List CandidateInsertion) : ∀ s : InsertionState, SingleStateInv s →
    SingleStateInv (applySingleInsertions block referenceOffset0 s ops) := by
  induction ops with
  | nil => intro s h; exact h
  | cons ins rest ih =>
    intro s h
    exact ih _ (applySingleInsertion_inv block referenceOffset0 s ins h)

theorem applyCompoundInsertions_inv (block : Block) (referenceOffsets : Int × Int)
    (ops : List CandidateInsertion) : ∀ s : InsertionState, CompoundStateInv s →
    CompoundStateInv (applyCompoundInsertions block referenceOffsets s ops) := by
  induction ops with
  | nil => intro s h; exact h
  | cons ins rest ih =>
    intro s h
    exact ih _ (applyCompoundInsertion_inv block referenceOffsets s ins h)

theorem searchStack_num_le (block : Block) (mvBp : BlockParameters) (index : Nat)
    (weight : Int) (fnm fm : Bool) (num : Nat) (pp : PredictionParameters)
    (h : num ≤ kMaxRefMvStackSize) :
    (SearchStack block mvBp index weight fnm fm num pp).numMvFound ≤ kMaxRefMvStackSize := by
  unfold SearchStack
  dsimp only
  (repeat' split) <;> first
    | exact h
    | (simp only [kMaxRefMvStackSize] at *; omega)

theorem compoundSearchStack_num_le (block : Block) (mvBp : BlockParameters)
    (weight : Int) (fnm fm : Bool) (num : Nat) (pp : PredictionParameters)
    (h : num ≤ kMaxRefMvStackSize) :
    (CompoundSearchStack block mvBp weight fnm fm num pp).numMvFound ≤ kMaxRefMvStackSize := by
  unfold CompoundSearchStack
  dsimp only
  (repeat' split) <;> first
    | exact h
    | (simp only [kMaxRefMvStackSize] at *; omega)

theorem addTemporalSingleStep_num_le (fh : ObuFrameHeader) (referenceOffset0 : Int)
    (s : TemporalOut) (cand : MotionVector × Int) (h : s.numMvFound ≤ kMaxRefMvStackSize) :
    (AddTemporalSingleStep fh referenceOffset0 s cand).numMvFound ≤ kMaxRefMvStackSize := by
  unfold AddTemporalSingleStep
  dsimp only
  (repeat' split) <;> first
    | exact h
    | (simp only [kMaxRefMvStackSize] at *; omega)

theorem addTemporalCompoundStep_num_le (fh : ObuFrameHeader)
    (referenceOffset0 referenceOffset1 : Int) (s : TemporalOut) (cand : MotionVector × Int)
    (h : s.numMvFound ≤ kMaxRefMvStackSize) :
    (AddTemporalCompoundStep fh referenceOffset0 referenceOffset1 s cand).numMvFound ≤
      kMaxRefMvStackSize := by
  unfold AddTemporalCompoundStep
  dsimp only
  (repeat' split) <;> first
    | exact h
    | (simp only [kMaxRefMvStackSize] at *; omega)

theorem applySingleInsertions_num_le (block : Block) (referenceOffset0 : Int)
    (ops : List CandidateInsertion) : ∀ s : InsertionState,
    s.numMvFound ≤ kMaxRefMvStackSize →
    (applySingleInsertions block referenceOffset0 s ops).numMvFound ≤ kMaxRefMvStackSize := by
  induction ops with
  | nil => intro s h; exact h
  | cons ins rest ih =>
    intro s h
    refine ih _ ?_
    cases ins with
    | spatial mvBp index weight => exact searchStack_num_le _ _ _ _ _ _ _ _ h
    | temporal temporalMv temporalReferenceOffset =>
      exact addTemporalSingleStep_num_le _ _ ⟨s.zeroMvContext, s.numMvFound, s.pp⟩ _ h

theorem applyCompoundInsertions_num_le (block : Block) (referenceOffsets : Int × Int)
    (ops : List CandidateInsertion) : ∀ s : InsertionState,
    s.numMvFound ≤ kMaxRefMvStackSize →
    (applyCompoundInsertions block referenceOffsets s ops).numMvFound ≤ kMaxRefMvStackSize := by
  induction ops with
  | nil => intro s h; exact h
  | cons ins rest ih =>
    intro s h
    refine ih _ ?_
    cases ins with
    | spatial mvBp index weight => exact compoundSearchStack_num_le _ _ _ _ _ _ _ h
    | temporal temporalMv temporalReferenceOffset =>
      exact addTemporalCompoundStep_num_le _ _ _ ⟨s.zeroMvContext, s.numMvFound, s.pp⟩ _ h

theorem addTemporalReferenceMvCandidate_num_le (fh : ObuFrameHeader)
    (referenceOffsets : Int × Int) (cands : List (MotionVector × Int)) (isCompound : Bool) :
    ∀ t : TemporalOut, t.numMvFound ≤ kMaxRefMvStackSize →
    (AddTemporalReferenceMvCandidate fh referenceOffsets cands isCompound t).numMvFound ≤
      kMaxRefMvStackSize := by
  unfold AddTemporalReferenceMvCandidate
  induction cands with
  | nil => intro t h; cases isCompound <;> exact h
  | cons cand rest ih =>
    intro t h
    cases isCompound with
    | false =>
      simp only [Bool.false_eq_true, if_false, List.foldl_cons] at ih ⊢
      exact ih _ (addTemporalSingleStep_num_le _ _ _ _ h)
    | true =>
      simp only [if_true, List.foldl_cons] at ih ⊢
      exact ih _ (addTemporalCompoundStep_num_le _ _ _ _ _ h)

theorem temporalScanSampleCell_fst_of_ne (tile : Tile)
    (rowStart columnStart mvRow mvColumn : Nat) (offset z : Int)
    (cands : List (MotionVector × Int))
    (h : ¬(mvRow = rowStart ∧ mvColumn = columnStart)) :
    (TemporalScanSampleCell tile rowStart columnStart mvRow mvColumn offset z cands).1 = z := by
  unfold TemporalScanSampleCell
  dsimp only
  (repeat' split) <;> first
    | rfl
    | (exact absurd (by assumption) h)

theorem temporalScanColumnLoop_fst (tile : Tile)
    (rowStart columnStart stepW columnEnd mvRow : Nat) (offset : Int) :
    ∀ (fuel mvColumn : Nat) (z : Int) (cands : List (MotionVector × Int)),
    (mvRow ≠ rowStart ∨ columnStart < mvColumn) →
    (TemporalScanColumnLoop tile rowStart columnStart stepW columnEnd mvRow offset fuel
      mvColumn z cands).1 = z := by
  intro fuel
  induction fuel with
  | zero => intro mvColumn z cands h; rfl
  | succ f ih =>
    intro mvColumn z cands h
    have hc : ¬(mvRow = rowStart ∧ mvColumn = columnStart) := by
      rcases h with h | h
      · exact fun hx => h hx.1
      · exact fun hx => by omega
    simp only [TemporalScanColumnLoop]
    split
    · rw [ih (mvColumn + stepW) _ _ (h.imp id fun hlt => by omega)]
      exact temporalScanSampleCell_fst_of_ne _ _ _ _ _ _ _ _ hc
    · exact temporalScanSampleCell_fst_of_ne _ _ _ _ _ _ _ _ hc

theorem temporalScanRowLoop_fst (tile : Tile)
    (rowStart columnStart stepW stepH columnEnd rowEnd : Nat) :
    ∀ (fuel mvRow : Nat) (offset : Int) (z : Int) (cands : List (MotionVector × Int)),
    rowStart < mvRow →
    (TemporalScanRowLoop tile rowStart columnStart stepW stepH columnEnd rowEnd fuel
      mvRow offset z cands).1 = z := by
  intro fuel
  induction fuel with
  | zero => intro mvRow offset z cands h; rfl
  | succ f ih =>
    intro mvRow offset z cands h
    simp only [TemporalScanRowLoop]
    split
    · rw [ih (mvRow + stepH) _ _ _ (by omega)]
      exact temporalScanColumnLoop_fst _ _ _ _ _ _ _ _ _ _ _ (Or.inl (by omega))
    · exact temporalScanColumnLoop_fst _ _ _ _ _ _ _ _ _ _ _ (Or.inl (by omega))

theorem temporalScanColumnLoop_fst_start (tile : Tile)
    (rowStart columnStart stepW columnEnd mvRow : Nat) (offset : Int) (hsw : 0 < stepW)
    (fuel : Nat) (z : Int) (cands : List (MotionVector × Int)) :
    (TemporalScanColumnLoop tile rowStart columnStart stepW columnEnd mvRow offset (fuel + 1)
      columnStart z cands).1 =
    (TemporalScanSampleCell tile rowStart columnStart mvRow columnStart offset z cands).1 := by
  simp only [TemporalScanColumnLoop]
  split
  · exact temporalScanColumnLoop_fst _ _ _ _ _ _ _ _ _ _ _ (Or.inr (by omega))
  · rfl

theorem temporalScanRowLoop_fst_start (tile : Tile)
    (rowStart columnStart stepW stepH columnEnd rowEnd : Nat) (offset : Int)
    (hsw : 0 < stepW) (hsh : 0 < stepH) (fuel : Nat) (z : Int)
    (cands : List (MotionVector × Int)) :
    (TemporalScanRowLoop tile rowStart columnStart stepW stepH columnEnd rowEnd (fuel + 1)
      rowStart offset z cands).1 =
    (TemporalScanSampleCell tile rowStart columnStart rowStart columnStart offset z cands).1 := by
  simp only [TemporalScanRowLoop]
  split
  · rw [temporalScanRowLoop_fst _ _ _ _ _ _ _ _ _ _ _ _ (by omega)]
    exact temporalScanColumnLoop_fst_start _ _ _ _ _ _ _ hsw _ _ _
  · exact temporalScanColumnLoop_fst_start _ _ _ _ _ _ _ hsw _ _ _

theorem temporalScanCollect_fst (block : Block) (z : Int) :
    (TemporalScanCollect block z).1 =
      (TemporalScanSampleCell block.tile (block.row4x4 ||| 1) (block.column4x4 ||| 1)
        (block.row4x4 ||| 1) (block.column4x4 ||| 1)
        ((block.tile.motionFieldStride : Int) * (((block.row4x4 ||| 1) >>> 1 : Nat) : Int))
        z []).1 := by
  unfold TemporalScanCollect
  dsimp only
  exact temporalScanRowLoop_fst_start _ _ _ _ _ _ _ _
    (by split <;> norm_num) (by split <;> norm_num) _ _ _

theorem addTemporalSingleStep_zmv_preserved (fh : ObuFrameHeader) (referenceOffset0 : Int)
    (s : TemporalOut) (cand : MotionVector × Int) (h : s.zeroMvContext ≠ -1) :
    (AddTemporalSingleStep fh referenceOffset0 s cand).zeroMvContext = s.zeroMvContext := by
  unfold AddTemporalSingleStep
  dsimp only
  rw [if_neg h]
  (repeat' split) <;> rfl

theorem addTemporalCompoundStep_zmv_preserved (fh : ObuFrameHeader)
    (referenceOffset0 referenceOffset1 : Int) (s : TemporalOut) (cand : MotionVector × Int)
    (h : s.zeroMvContext ≠ -1) :
    (AddTemporalCompoundStep fh referenceOffset0 referenceOffset1 s cand).zeroMvContext =
      s.zeroMvContext := by
  unfold AddTemporalCompoundStep
  dsimp only
  rw [if_neg h]
  (repeat' split) <;> rfl

theorem foldlSingle_zmv_preserved (fh : ObuFrameHeader) (referenceOffset0 : Int) :
    ∀ (cands : List (MotionVector × Int)) (s : TemporalOut), s.zeroMvContext ≠ -1 →
    (cands.foldl (AddTemporalSingleStep fh referenceOffset0) s).zeroMvContext =
      s.zeroMvContext := by
  intro cands
  induction cands with
  | nil => intro s h; rfl
  | cons cand rest ih =>
    intro s h
    rw [List.foldl_cons, ih _ (by
      rw [addTemporalSingleStep_zmv_preserved fh referenceOffset0 s cand h]; exact h)]
    exact addTemporalSingleStep_zmv_preserved fh referenceOffset0 s cand h

theorem foldlCompound_zmv_preserved (fh : ObuFrameHeader)
    (referenceOffset0 referenceOffset1 : Int) :
    ∀ (cands : List (MotionVector × Int)) (s : TemporalOut), s.zeroMvContext ≠ -1 →
    (cands.foldl (AddTemporalCompoundStep fh referenceOffset0 referenceOffset1)
      s).zeroMvContext = s.zeroMvContext := by
  intro cands
  induction cands with
  | nil => intro s h; rfl
  | cons cand rest ih =>
    intro s h
    rw [List.foldl_cons, ih _ (by
      rw [addTemporalCompoundStep_zmv_preserved fh referenceOffset0 referenceOffset1 s cand h]
      exact h)]
    exact addTemporalCompoundStep_zmv_preserved fh referenceOffset0 referenceOffset1 s cand h

theorem addTemporalReferenceMvCandidate_zmv_preserved (fh : ObuFrameHeader)
    (referenceOffsets : Int × Int) (cands : List (MotionVector × Int)) (isCompound : Bool)
    (s : TemporalOut) (h : s.zeroMvContext ≠ -1) :
    (AddTemporalReferenceMvCandidate fh referenceOffsets cands isCompound s).zeroMvContext =
      s.zeroMvContext := by
  unfold AddTemporalReferenceMvCandidate
  cases isCompound with
  | false =>
    simp only [Bool.false_eq_true, if_false]
    exact foldlSingle_zmv_preserved _ _ _ _ h
  | true =>
    simp only [if_true]
    exact foldlCompound_zmv_preserved _ _ _ _ _ h

theorem addTemporalSingleStep_zmv_first (fh : ObuFrameHeader) (referenceOffset0 : Int)
    (s : TemporalOut) (cand : MotionVector × Int) (h : s.zeroMvContext = -1) :
    (AddTemporalSingleStep fh referenceOffset0 s cand).zeroMvContext =
      if 16 ≤ temporalMaxDifferenceSingle s.pp.globalMv0
          (temporalCandidateSingle fh referenceOffset0 cand.1 cand.2) then 1 else 0 := by
  unfold AddTemporalSingleStep
  dsimp only
  rw [if_pos h]
  (repeat' split) <;> rfl

theorem addTemporalCompoundStep_zmv_first (fh : ObuFrameHeader)
    (referenceOffset0 referenceOffset1 : Int) (s : TemporalOut) (cand : MotionVector × Int)
    (h : s.zeroMvContext = -1) :
    (AddTemporalCompoundStep fh referenceOffset0 referenceOffset1 s cand).zeroMvContext =
      if 16 ≤ temporalMaxDifferenceCompound s.pp.globalMv0 s.pp.globalMv1
          (temporalCandidateCompound fh referenceOffset0 referenceOffset1 cand.1 cand.2)
        then 1 else 0 := by
  unfold AddTemporalCompoundStep
  dsimp only
  rw [if_pos h]
  (repeat' split) <;> rfl

theorem temporalScan_zmv_of_collect_ne (block : Block) (isCompound : Bool) (z : Int)
    (numMvFound : Nat) (pp : PredictionParameters)
    (h : (TemporalScanCollect block z).1 ≠ -1) :
    (TemporalScan block isCompound z numMvFound pp).zeroMvContext =
      (TemporalScanCollect block z).1 := by
  unfold TemporalScan
  dsimp only
  split
  · rfl
  · exact addTemporalReferenceMvCandidate_zmv_preserved _ _ _ _
      ⟨(TemporalScanCollect block z).1, numMvFound, pp⟩ h

theorem stackAdvance_refl (num : Nat) (pp : PredictionParameters) :
    StackAdvance num pp num pp :=
  ⟨fun h => h, le_refl _, rfl⟩

theorem stackAdvance_trans {n1 n2 n3 : Nat} {p1 p2 p3 : PredictionParameters}
    (h1 : StackAdvance n1 p1 n2 p2) (h2 : StackAdvance n2 p2 n3 p3) :
    StackAdvance n1 p1 n3 p3 :=
  ⟨fun h => h2.1 (h1.1 h), le_trans h1.2.1 h2.2.1, h2.2.2.trans h1.2.2⟩

theorem searchStack_advance (block : Block) (mvBp : BlockParameters) (index : Nat)
    (weight : Int) (fnm fm : Bool) (num : Nat) (pp : PredictionParameters) :
    StackAdvance num pp (SearchStack block mvBp index weight fnm fm num pp).numMvFound
      (SearchStack block mvBp index weight fnm fm num pp).pp := by
  unfold SearchStack
  dsimp only
  (repeat' split) <;>
    refine ⟨fun h => ?_, ?_, rfl⟩ <;>
    simp_all [PredictionParameters.IncreaseWeight,
      PredictionParameters.SetWeightIndexStackEntry] <;>
    omega

theorem compoundSearchStack_advance (block : Block) (mvBp : BlockParameters)
    (weight : Int) (fnm fm : Bool) (num : Nat) (pp : PredictionParameters) :
    StackAdvance num pp (CompoundSearchStack block mvBp weight fnm fm num pp).numMvFound
      (CompoundSearchStack block mvBp weight fnm fm num pp).pp := by
  unfold CompoundSearchStack
  dsimp only
  (repeat' split) <;>
    refine ⟨fun h => ?_, ?_, rfl⟩ <;>
    simp_all [PredictionParameters.IncreaseWeight,
      PredictionParameters.SetWeightIndexStackEntry] <;>
    omega

theorem addReferenceMvCandidate_advance (block : Block) (mvBp : BlockParameters)
    (isCompound : Bool) (weight : Int) (s : ScanOut) :
    StackAdvance s.numMvFound s.pp
      (AddReferenceMvCandidate block mvBp isCompound weight s).numMvFound
      (AddReferenceMvCandidate block mvBp isCompound weight s).pp := by
  unfold AddReferenceMvCandidate
  dsimp only
  split
  · exact stackAdvance_refl _ _
  · split
    · split
      · exact compoundSearchStack_advance _ _ _ _ _ _ _
      · exact stackAdvance_refl _ _
    · split
      · split
        · exact stackAdvance_trans (searchStack_advance _ _ _ _ _ _ _ _)
            (searchStack_advance _ _ _ _ _ _ _ _)
        · exact searchStack_advance _ _ _ _ _ _ _ _
      · split
        · exact searchStack_advance _ _ _ _ _ _ _ _
        · exact stackAdvance_refl _ _

theorem scanRowLoop_advance (block : Block) (mvRow : Int) (isCompound : Bool)
    (minStep : Nat) (endPos : Int) :
    ∀ (fuel : Nat) (pos : Int) (s : ScanOut),
    StackAdvance s.numMvFound s.pp
      (ScanRowLoop block mvRow isCompound minStep endPos fuel pos s).numMvFound
      (ScanRowLoop block mvRow isCompound minStep endPos fuel pos s).pp := by
  intro fuel
  induction fuel with
  | zero => intro pos s; exact stackAdvance_refl _ _
  | succ f ih =>
    intro pos s
    simp only [ScanRowLoop]
    split
    · exact stackAdvance_trans (addReferenceMvCandidate_advance _ _ _ _ _) (ih _ _)
    · exact addReferenceMvCandidate_advance _ _ _ _ _

theorem scanRow_advance (block : Block) (mvColumn deltaRow : Int) (isCompound : Bool)
    (s : ScanOut) :
    StackAdvance s.numMvFound s.pp
      (ScanRow block mvColumn deltaRow isCompound s).numMvFound
      (ScanRow block mvColumn deltaRow isCompound s).pp := by
  unfold ScanRow
  dsimp only
  split
  · exact scanRowLoop_advance _ _ _ _ _ _ _ _
  · exact stackAdvance_refl _ _

theorem scanColumnLoop_advance (block : Block) (mvColumn : Int) (isCompound : Bool)
    (minStep : Nat) (endPos : Int) :
    ∀ (fuel : Nat) (pos : Int) (s : ScanOut),
    StackAdvance s.numMvFound s.pp
      (ScanColumnLoop block mvColumn isCompound minStep endPos fuel pos s).numMvFound
      (ScanColumnLoop block mvColumn isCompound minStep endPos fuel pos s).pp := by
  intro fuel
  induction fuel with
  | zero => intro pos s; exact stackAdvance_refl _ _
  | succ f ih =>
    intro pos s
    simp only [ScanColumnLoop]
    split
    · exact stackAdvance_trans (addReferenceMvCandidate_advance _ _ _ _ _) (ih _ _)
    · exact addReferenceMvCandidate_advance _ _ _ _ _

theorem scanColumn_advance (block : Block) (mvRow deltaColumn : Int) (isCompound : Bool)
    (s : ScanOut) :
    StackAdvance s.numMvFound s.pp
      (ScanColumn block mvRow deltaColumn isCompound s).numMvFound
      (ScanColumn block mvRow deltaColumn isCompound s).pp := by
  unfold ScanColumn
  dsimp only
  split
  · exact scanColumnLoop_advance _ _ _ _ _ _ _ _
  · exact stackAdvance_refl _ _

theorem scanPoint_advance (block : Block) (deltaRow deltaColumn : Int) (isCompound : Bool)
    (s : ScanOut) :
    StackAdvance s.numMvFound s.pp
      (ScanPoint block deltaRow deltaColumn isCompound s).numMvFound
      (ScanPoint block deltaRow deltaColumn isCompound s).pp := by
  unfold ScanPoint
  dsimp only
  split
  · split
    · exact stackAdvance_refl _ _
    · exact addReferenceMvCandidate_advance _ _ _ _ _
  · exact stackAdvance_refl _ _

theorem addTemporalSingleStep_advance (fh : ObuFrameHeader) (referenceOffset0 : Int)
    (s : TemporalOut) (cand : MotionVector × Int) :
    StackAdvance s.numMvFound s.pp
      (AddTemporalSingleStep fh referenceOffset0 s cand).numMvFound
      (AddTemporalSingleStep fh referenceOffset0 s cand).pp := by
  unfold AddTemporalSingleStep
  dsimp only
  (repeat' split) <;>
    refine ⟨fun h => ?_, ?_, rfl⟩ <;>
    simp_all [PredictionParameters.IncreaseWeight,
      PredictionParameters.SetWeightIndexStackEntry] <;>
    omega

theorem addTemporalCompoundStep_advance (fh : ObuFrameHeader)
    (referenceOffset0 referenceOffset1 : Int) (s : TemporalOut) (cand : MotionVector × Int) :
    StackAdvance s.numMvFound s.pp
      (AddTemporalCompoundStep fh referenceOffset0 referenceOffset1 s cand).numMvFound
      (AddTemporalCompoundStep fh referenceOffset0 referenceOffset1 s cand).pp := by
  unfold AddTemporalCompoundStep
  dsimp only
  (repeat' split) <;>
    refine ⟨fun h => ?_, ?_, rfl⟩ <;>
    simp_all [PredictionParameters.IncreaseWeight,
      PredictionParameters.SetWeightIndexStackEntry] <;>
    omega

theorem foldlSingle_advance (fh : ObuFrameHeader) (referenceOffset0 : Int) :
    ∀ (cands : List (MotionVector × Int)) (s : TemporalOut),
    StackAdvance s.numMvFound s.pp
      (cands.foldl (AddTemporalSingleStep fh referenceOffset0) s).numMvFound
      (cands.foldl (AddTemporalSingleStep fh referenceOffset0) s).pp := by
  intro cands
  induction cands with
  | nil => intro s; exact stackAdvance_refl _ _
  | cons cand rest ih =>
    intro s
    rw [List.foldl_cons]
    exact stackAdvance_trans (addTemporalSingleStep_advance _ _ _ _) (ih _)

theorem foldlCompound_advance (fh : ObuFrameHeader)
    (referenceOffset0 referenceOffset1 : Int) :
    ∀ (cands : List (MotionVector × Int)) (s : TemporalOut),
    StackAdvance s.numMvFound s.pp
      (cands.foldl (AddTemporalCompoundStep fh referenceOffset0 referenceOffset1) s).numMvFound
      (cands.foldl (AddTemporalCompoundStep fh referenceOffset0 referenceOffset1) s).pp := by
  intro cands
  induction cands with
  | nil => intro s; exact stackAdvance_refl _ _
  | cons cand rest ih =>
    intro s
    rw [List.foldl_cons]
    exact stackAdvance_trans (addTemporalCompoundStep_advance _ _ _ _ _) (ih _)

theorem addTemporalReferenceMvCandidate_advance (fh : ObuFrameHeader)
    (referenceOffsets : Int × Int) (cands : List (MotionVector × Int)) (isCompound : Bool)
    (s : TemporalOut) :
    StackAdvance s.numMvFound s.pp
      (AddTemporalReferenceMvCandidate fh referenceOffsets cands isCompound s).numMvFound
      (AddTemporalReferenceMvCandidate fh referenceOffsets cands isCompound s).pp := by
  unfold AddTemporalReferenceMvCandidate
  cases isCompound with
  | false =>
    simp only [Bool.false_eq_true, if_false]
    exact foldlSingle_advance _ _ _ _
  | true =>
    simp only [if_true]
    exact foldlCompound_advance _ _ _ _ _

theorem temporalScan_advance (block : Block) (isCompound : Bool) (zeroMvContext : Int)
    (numMvFound : Nat) (pp : PredictionParameters) :
    StackAdvance numMvFound pp
      (TemporalScan block isCompound zeroMvContext numMvFound pp).numMvFound
      (TemporalScan block isCompound zeroMvContext numMvFound pp).pp := by
  unfold TemporalScan
  dsimp only
  split
  · exact stackAdvance_refl _ _
  · exact addTemporalReferenceMvCandidate_advance _ _ _ _
      ⟨(TemporalScanCollect block zeroMvContext).1, numMvFound, pp⟩

set_option maxHeartbeats 1000000 in
theorem findMvStackNearest_advance (block : Block) (isCompound : Bool) :
    StackAdvance 0 (FindMvStackInitialPredictionParameters block isCompound)
      (FindMvStackNearest block isCompound).1.numMvFound
      (FindMvStackNearest block isCompound).1.pp := by
  unfold FindMvStackNearest
  dsimp only
  have h1 := scanRow_advance block (block.column4x4 : Int) (-1) isCompound
    ⟨false, false, 0, FindMvStackInitialPredictionParameters block isCompound⟩
  generalize hA : ScanRow block (block.column4x4 : Int) (-1) isCompound
    ⟨false, false, 0, FindMvStackInitialPredictionParameters block isCompound⟩ = sA
  rw [hA] at h1
  have h2 := scanColumn_advance block (block.row4x4 : Int) (-1) isCompound
    ⟨sA.foundNewMv, false, sA.numMvFound, sA.pp⟩
  generalize hB : ScanColumn block (block.row4x4 : Int) (-1) isCompound
    ⟨sA.foundNewMv, false, sA.numMvFound, sA.pp⟩ = sB
  rw [hB] at h2
  split
  · have h3 := scanPoint_advance block (-1) (block.width4x4 : Int) isCompound
      ⟨sB.foundNewMv, sA.foundMatch, sB.numMvFound, sB.pp⟩
    generalize hC : ScanPoint block (-1) (block.width4x4 : Int) isCompound
      ⟨sB.foundNewMv, sA.foundMatch, sB.numMvFound, sB.pp⟩ = sC
    rw [hC] at h3
    exact stackAdvance_trans h1 (stackAdvance_trans h2 h3)
  · exact stackAdvance_trans h1 h2

set_option maxHeartbeats 1000000 in
theorem findMvStackLaterScans_advance (block : Block) (isCompound : Bool)
    (foundRowMatch foundColumnMatch : Bool) (numMvFound : Nat) (pp : PredictionParameters) :
    StackAdvance numMvFound pp
      (FindMvStackLaterScans block isCompound foundRowMatch foundColumnMatch numMvFound
        pp).2.2.1
      (FindMvStackLaterScans block isCompound foundRowMatch foundColumnMatch numMvFound
        pp).2.2.2 := by
  unfold FindMvStackLaterScans
  dsimp only
  have h1 := scanPoint_advance block (-1) (-1) isCompound
    ⟨false, foundRowMatch, numMvFound, pp⟩
  generalize hA : ScanPoint block (-1) (-1) isCompound
    ⟨false, foundRowMatch, numMvFound, pp⟩ = sA
  rw [hA] at h1
  have h2 := scanRow_advance block ((block.column4x4 ||| 1 : Nat) : Int)
    (-3 + ((block.row4x4 &&& 1 : Nat) : Int)) isCompound
    ⟨sA.foundNewMv, sA.foundMatch, sA.numMvFound, sA.pp⟩
  generalize hB : ScanRow block ((block.column4x4 ||| 1 : Nat) : Int)
    (-3 + ((block.row4x4 &&& 1 : Nat) : Int)) isCompound
    ⟨sA.foundNewMv, sA.foundMatch, sA.numMvFound, sA.pp⟩ = sB
  rw [hB] at h2
  have h3 := scanColumn_advance block ((block.row4x4 ||| 1 : Nat) : Int)
    (-3 + ((block.column4x4 &&& 1 : Nat) : Int)) isCompound
    ⟨sB.foundNewMv, foundColumnMatch, sB.numMvFound, sB.pp⟩
  generalize hC : ScanColumn block ((block.row4x4 ||| 1 : Nat) : Int)
    (-3 + ((block.column4x4 &&& 1 : Nat) : Int)) isCompound
    ⟨sB.foundNewMv, foundColumnMatch, sB.numMvFound, sB.pp⟩ = sC
  rw [hC] at h3
  have h12 := stackAdvance_trans h1 (stackAdvance_trans h2 h3)
  split
  · split
    · have h4 := scanRow_advance block ((block.column4x4 ||| 1 : Nat) : Int)
        (-5 + ((block.row4x4 &&& 1 : Nat) : Int)) isCompound
        ⟨sC.foundNewMv, sB.foundMatch, sC.numMvFound, sC.pp⟩
      generalize hD : ScanRow block ((block.column4x4 ||| 1 : Nat) : Int)
        (-5 + ((block.row4x4 &&& 1 : Nat) : Int)) isCompound
        ⟨sC.foundNewMv, sB.foundMatch, sC.numMvFound, sC.pp⟩ = sD
      rw [hD] at h4
      have h5 := scanColumn_advance block ((block.row4x4 ||| 1 : Nat) : Int)
        (-5 + ((block.column4x4 &&& 1 : Nat) : Int)) isCompound
        ⟨sD.foundNewMv, sC.foundMatch, sD.numMvFound, sD.pp⟩
      exact stackAdvance_trans h12 (stackAdvance_trans h4 h5)
    · dsimp only
      have h4 := scanColumn_advance block ((block.row4x4 ||| 1 : Nat) : Int)
        (-5 + ((block.column4x4 &&& 1 : Nat) : Int)) isCompound
        ⟨sC.foundNewMv, sC.foundMatch, sC.numMvFound, sC.pp⟩
      exact stackAdvance_trans h12 h4
  · split
    · dsimp only
      have h4 := scanRow_advance block ((block.column4x4 ||| 1 : Nat) : Int)
        (-5 + ((block.row4x4 &&& 1 : Nat) : Int)) isCompound
        ⟨sC.foundNewMv, sB.foundMatch, sC.numMvFound, sC.pp⟩
      exact stackAdvance_trans h12 h4
    · exact h12

set_option maxHeartbeats 1000000 in
theorem findMvStackScan_wf (block : Block) (isCompound : Bool) :
    (FindMvStackScan block isCompound).pp.weightIndexStack.length =
      (FindMvStackScan block isCompound).numMvFound ∧
    (FindMvStackScan block isCompound).pp.nearestMvCount ≤
      (FindMvStackScan block isCompound).numMvFound ∧
    (FindMvStackScan block isCompound).pp.nearestMvCount =
      (FindMvStackNearest block isCompound).1.numMvFound := by
  have hn := findMvStackNearest_advance block isCompound
  unfold FindMvStackScan
  dsimp only
  generalize hN : FindMvStackNearest block isCompound = N
  rw [hN] at hn
  have hwN : N.1.pp.weightIndexStack.length = N.1.numMvFound := hn.1 rfl
  split
  · have ht := temporalScan_advance block isCompound (-1) N.1.numMvFound
      { N.1.pp with nearestMvCount := N.1.numMvFound }
    generalize hT : TemporalScan block isCompound (-1) N.1.numMvFound
      { N.1.pp with nearestMvCount := N.1.numMvFound } = T
    rw [hT] at ht
    have hl := findMvStackLaterScans_advance block isCompound N.1.foundMatch N.2
      T.numMvFound T.pp
    generalize hL : FindMvStackLaterScans block isCompound N.1.foundMatch N.2
      T.numMvFound T.pp = L
    rw [hL] at hl
    have hc := stackAdvance_trans ht hl
    exact ⟨hc.1 hwN, by rw [hc.2.2]; exact hc.2.1, hc.2.2⟩
  · have hl := findMvStackLaterScans_advance block isCompound N.1.foundMatch N.2
      N.1.numMvFound { N.1.pp with nearestMvCount := N.1.numMvFound }
    generalize hL : FindMvStackLaterScans block isCompound N.1.foundMatch N.2
      N.1.numMvFound { N.1.pp with nearestMvCount := N.1.numMvFound } = L
    rw [hL] at hl
    exact ⟨hl.1 hwN, by rw [hl.2.2]; exact hl.2.1, hl.2.2⟩

/-! Claim theorems. -/

/-- C6 counterexample: with `force_integer_mv` set, the component value
32765 (a legal `int16_t` value) produces `(|32765| + 3) & ~7 = 32768`,
which overflows the `int16_t` store and wraps to -32768, so the result
differs from the claimed rule "`(|v| + 3) & ~7` with the sign
reapplied". -/
theorem C6_counterexample :
    (LowerMvPrecision
        ({ allowHighPrecisionMv := false, forceIntegerMv := 1, useRefFrameMvs := false,
           globalMotion := [], columns4x4 := 0, rows4x4 := 0, orderHint := 0,
           referenceFrameIndex := [] } : ObuFrameHeader)
        ⟨32765, 0⟩).mv0 = -32768 ∧
    claimedForceIntegerRounding 32765 = 32768 := by
  constructor <;> decide

/-- C6 (amended): for motion vectors with `int16_t` components and high
precision disallowed, `force_integer_mv` makes every component of
`LowerMvPrecision` an exact multiple of 8, and the component equals
"`(|v| + 3) & ~7` with the original sign reapplied" whenever that value
fits `int16_t` (that is, whenever `v ≤ 2^15 - 4`; above that the store
wraps 32768 to -32768); with `force_integer_mv` clear, each odd
component is rounded toward zero and even components are unchanged. -/
theorem C6_lowerMvPrecision (fh : ObuFrameHeader) (mv : MotionVector)
    (hhp : fh.allowHighPrecisionMv = false)
    (h0l : -(2 ^ 15) ≤ mv.mv0) (h0u : mv.mv0 < 2 ^ 15)
    (h1l : -(2 ^ 15) ≤ mv.mv1) (h1u : mv.mv1 < 2 ^ 15) :
    (fh.forceIntegerMv ≠ 0 →
      (LowerMvPrecision fh mv).mv0 % 8 = 0 ∧ (LowerMvPrecision fh mv).mv1 % 8 = 0 ∧
      (mv.mv0 ≤ 2 ^ 15 - 4 →
        (LowerMvPrecision fh mv).mv0 = claimedForceIntegerRounding mv.mv0) ∧
      (mv.mv1 ≤ 2 ^ 15 - 4 →
        (LowerMvPrecision fh mv).mv1 = claimedForceIntegerRounding mv.mv1)) ∧
    (fh.forceIntegerMv = 0 →
      (mv.mv0 % 2 ≠ 0 →
        (LowerMvPrecision fh mv).mv0 = if 0 < mv.mv0 then mv.mv0 - 1 else mv.mv0 + 1) ∧
      (mv.mv1 % 2 ≠ 0 →
        (LowerMvPrecision fh mv).mv1 = if 0 < mv.mv1 then mv.mv1 - 1 else mv.mv1 + 1) ∧
      (mv.mv0 % 2 = 0 → (LowerMvPrecision fh mv).mv0 = mv.mv0) ∧
      (mv.mv1 % 2 = 0 → (LowerMvPrecision fh mv).mv1 = mv.mv1)) := by
  constructor
  · intro hf
    simp only [LowerMvPrecision, hhp, Bool.false_eq_true, if_false, hf, ne_eq,
      not_false_iff, if_true]
    refine ⟨lowerMvPrecisionForceInteger_mult_eight _,
      lowerMvPrecisionForceInteger_mult_eight _, ?_, ?_⟩
    · intro hb; exact lowerMvPrecisionForceInteger_eq_claimed _ h0l hb
    · intro hb; exact lowerMvPrecisionForceInteger_eq_claimed _ h1l hb
  · intro hf
    simp only [LowerMvPrecision, hhp, Bool.false_eq_true, if_false, hf, ne_eq,
      not_true, if_true, lowerMvPrecisionOdd]
    refine ⟨?_, ?_, ?_, ?_⟩ <;> intro hodd <;> simp [hodd]

/-- C6 witness: `force_integer_mv` on the components -13 and 7 gives
multiples of 8 matching the claimed rule at in-range inputs. -/
theorem C6_witness :
    (LowerMvPrecision
        ({ allowHighPrecisionMv := false, forceIntegerMv := 1, useRefFrameMvs := false,
           globalMotion := [], columns4x4 := 0, rows4x4 := 0, orderHint := 0,
           referenceFrameIndex := [] } : ObuFrameHeader) ⟨-13, 7⟩).mv0 % 8 = 0 ∧
    (LowerMvPrecision
        ({ allowHighPrecisionMv := false, forceIntegerMv := 1, useRefFrameMvs := false,
           globalMotion := [], columns4x4 := 0, rows4x4 := 0, orderHint := 0,
           referenceFrameIndex := [] } : ObuFrameHeader) ⟨-13, 7⟩).mv1 % 8 = 0 ∧
    (LowerMvPrecision
        ({ allowHighPrecisionMv := false, forceIntegerMv := 1, useRefFrameMvs := false,
           globalMotion := [], columns4x4 := 0, rows4x4 := 0, orderHint := 0,
           referenceFrameIndex := [] } : ObuFrameHeader) ⟨-13, 7⟩).mv0 =
      claimedForceIntegerRounding (-13) ∧
    (LowerMvPrecision
        ({ allowHighPrecisionMv := false, forceIntegerMv := 1, useRefFrameMvs := false,
           globalMotion := [], columns4x4 := 0, rows4x4 := 0, orderHint := 0,
           referenceFrameIndex := [] } : ObuFrameHeader) ⟨-13, 7⟩).mv1 =
      claimedForceIntegerRounding 7 := by
  have h :=
    (C6_lowerMvPrecision
        ({ allowHighPrecisionMv := false, forceIntegerMv := 1, useRefFrameMvs := false,
           globalMotion := [], columns4x4 := 0, rows4x4 := 0, orderHint := 0,
           referenceFrameIndex := [] } : ObuFrameHeader) ⟨-13, 7⟩ rfl (by decide)
        (by decide) (by decide) (by decide)).1 (by decide)
  exact ⟨h.1, h.2.1, h.2.2.1 (by decide), h.2.2.2 (by decide)⟩


/-- C8: the context table of `ComputeContexts`: zero nearest matches give
`new_mv_context = min(total, 1)` and `reference_mv_context = total`; one
nearest match gives `3 - found_new_mv` and `2 + total`; two nearest
matches give `5 - found_new_mv` and `5`. -/
theorem C8_computeContexts (foundNewMv : Bool) (nearestMatches totalMatches : Int) :
    (nearestMatches = 0 →
      ComputeContexts foundNewMv nearestMatches totalMatches =
        (min totalMatches 1, totalMatches)) ∧
    (nearestMatches = 1 →
      ComputeContexts foundNewMv nearestMatches totalMatches =
        (3 - (if foundNewMv then 1 else 0), 2 + totalMatches)) ∧
    (nearestMatches = 2 →
      ComputeContexts foundNewMv nearestMatches totalMatches =
        (5 - (if foundNewMv then 1 else 0), 5)) := by
  refine ⟨fun h => ?_, fun h => ?_, fun h => ?_⟩ <;> subst h <;>
    simp [ComputeContexts]

/-- C8 witness: one nearest match, one total match, a new-MV neighbor
found: contexts (2, 3), matching the spec's scenario line. -/
theorem C8_witness : ComputeContexts true 1 1 = (2, 3) :=
  (C8_computeContexts true 1 1).2.1 rfl

/-- C7: a dimension mismatch or an intra-only source makes
`MotionFieldProjection` return false and leave the temporal motion field
untouched, for every projection kernel. -/
theorem C7_motionFieldProjection_not_usable (fh : ObuFrameHeader)
    (referenceFrames : List RefFrame) (source referenceToCurrentWithSign : Int)
    (kernel : TemporalMotionField → TemporalMotionField) (motionField : TemporalMotionField)
    (h : (MotionFieldProjectionSourceFrame fh referenceFrames source).rows4x4 ≠ fh.rows4x4 ∨
      (MotionFieldProjectionSourceFrame fh referenceFrames source).columns4x4 ≠ fh.columns4x4 ∨
      IsIntraFrame (MotionFieldProjectionSourceFrame fh referenceFrames source).frameType = true) :
    MotionFieldProjection fh referenceFrames source referenceToCurrentWithSign kernel
      motionField = (false, motionField) := by
  unfold MotionFieldProjection
  rw [if_pos h]

/-- C7 witness: a 2x4 source frame against a 4x4 current frame is
skipped even by a kernel that would erase the field. -/
theorem C7_witness :
    MotionFieldProjection
      ({ allowHighPrecisionMv := false, forceIntegerMv := 0, useRefFrameMvs := true,
         globalMotion := [], columns4x4 := 4, rows4x4 := 4, orderHint := 0,
         referenceFrameIndex := [0] } : ObuFrameHeader)
      [⟨2, 4, kFrameInter⟩] kReferenceFrameLast 1 (fun _ => ⟨[], []⟩)
      ⟨[⟨1, 2⟩], [3]⟩ = (false, ⟨[⟨1, 2⟩], [3]⟩) :=
  C7_motionFieldProjection_not_usable _ _ _ _ _ _ (Or.inl (by decide))

/-- C10: when the source frame passes the dimension and intra checks but
the signed reference distance exceeds `kMaxFrameDistance`, the function
returns true while never invoking the projection kernel, leaving the
temporal motion field unmodified. -/
theorem C10_motionFieldProjection_distance (fh : ObuFrameHeader)
    (referenceFrames : List RefFrame) (source referenceToCurrentWithSign : Int)
    (kernel : TemporalMotionField → TemporalMotionField) (motionField : TemporalMotionField)
    (hrows : (MotionFieldProjectionSourceFrame fh referenceFrames source).rows4x4 = fh.rows4x4)
    (hcols : (MotionFieldProjectionSourceFrame fh referenceFrames source).columns4x4 =
      fh.columns4x4)
    (hintra : IsIntraFrame (MotionFieldProjectionSourceFrame fh referenceFrames source).frameType
      = false)
    (hdist : kMaxFrameDistance < referenceToCurrentWithSign) :
    MotionFieldProjection fh referenceFrames source referenceToCurrentWithSign kernel
      motionField = (true, motionField) := by
  unfold MotionFieldProjection
  rw [if_neg, if_pos hdist]
  simp [hrows, hcols, hintra]

/-- C10 witness: a matching inter source at signed distance 32 is
reported usable, yet even a field-erasing kernel does not run. -/
theorem C10_witness :
    MotionFieldProjection
      ({ allowHighPrecisionMv := false, forceIntegerMv := 0, useRefFrameMvs := true,
         globalMotion := [], columns4x4 := 4, rows4x4 := 4, orderHint := 0,
         referenceFrameIndex := [0] } : ObuFrameHeader)
      [⟨4, 4, kFrameInter⟩] kReferenceFrameLast 32 (fun _ => ⟨[], []⟩)
      ⟨[⟨1, 2⟩], [3]⟩ = (true, ⟨[⟨1, 2⟩], [3]⟩) :=
  C10_motionFieldProjection_distance _ _ _ _ _ _ (by decide) (by decide) (by decide) (by decide)

/-- C5: over any sequence of spatial and temporal candidate insertions,
in single or compound mode, and over a whole temporal candidate batch,
the candidate count never exceeds `kMaxRefMvStackSize`, which is 8. -/
theorem C5_stack_capacity (block : Block) (referenceOffset0 : Int)
    (referenceOffsets : Int × Int) (ops : List CandidateInsertion) (s : InsertionState)
    (h : s.numMvFound ≤ kMaxRefMvStackSize) :
    kMaxRefMvStackSize = 8 ∧
    (applySingleInsertions block referenceOffset0 s ops).numMvFound ≤ kMaxRefMvStackSize ∧
    (applyCompoundInsertions block referenceOffsets s ops).numMvFound ≤ kMaxRefMvStackSize ∧
    (∀ (fh : ObuFrameHeader) (cands : List (MotionVector × Int)) (isCompound : Bool)
      (t : TemporalOut), t.numMvFound ≤ kMaxRefMvStackSize →
      (AddTemporalReferenceMvCandidate fh referenceOffsets cands isCompound t).numMvFound ≤
        kMaxRefMvStackSize) :=
  ⟨rfl, applySingleInsertions_num_le block referenceOffset0 ops s h,
    applyCompoundInsertions_num_le block referenceOffsets ops s h,
    fun fh cands isCompound t ht =>
      addTemporalReferenceMvCandidate_num_le fh referenceOffsets cands isCompound t ht⟩

/-- C5 witness: nine distinct spatial candidates inserted into an empty
stack stay within the capacity bound. -/
theorem C5_witness :
    (applySingleInsertions blockNoNeighbors 0
        ⟨false, false, -1, 0, emptyPredictionParameters⟩
        [.spatial ⟨0, 1, -1, ⟨⟨1, 0⟩, ⟨0, 0⟩⟩, true, false, 0⟩ 0 2,
         .spatial ⟨0, 1, -1, ⟨⟨2, 0⟩, ⟨0, 0⟩⟩, true, false, 0⟩ 0 2,
         .spatial ⟨0, 1, -1, ⟨⟨3, 0⟩, ⟨0, 0⟩⟩, true, false, 0⟩ 0 2,
         .spatial ⟨0, 1, -1, ⟨⟨4, 0⟩, ⟨0, 0⟩⟩, true, false, 0⟩ 0 2,
         .spatial ⟨0, 1, -1, ⟨⟨5, 0⟩, ⟨0, 0⟩⟩, true, false, 0⟩ 0 2,
         .spatial ⟨0, 1, -1, ⟨⟨6, 0⟩, ⟨0, 0⟩⟩, true, false, 0⟩ 0 2,
         .spatial ⟨0, 1, -1, ⟨⟨7, 0⟩, ⟨0, 0⟩⟩, true, false, 0⟩ 0 2,
         .spatial ⟨0, 1, -1, ⟨⟨8, 0⟩, ⟨0, 0⟩⟩, true, false, 0⟩ 0 2,
         .spatial ⟨0, 1, -1, ⟨⟨9, 0⟩, ⟨0, 0⟩⟩, true, false, 0⟩ 0 2]).numMvFound ≤
      kMaxRefMvStackSize :=
  (C5_stack_capacity blockNoNeighbors 0 (0, 0) _ _ (by decide)).2.1

/-- C2: candidate stacks stay duplicate-free over every insertion
sequence, and one insertion either accumulates weight at the first equal
entry (leaving the stack length unchanged), appends a genuinely new
value when capacity remains, or drops it leaving the stack state
untouched.  The weight array is the spec-modelled per-entry weight
list. -/
theorem C2_dedup_insert (block : Block) (referenceOffset0 : Int)
    (referenceOffsets : Int × Int) (ops : List CandidateInsertion) (s t : InsertionState)
    (fh : ObuFrameHeader) (u : TemporalOut)
    (mvBp : BlockParameters) (index : Nat) (weight : Int) (fnm fm : Bool)
    (temporalMv : MotionVector) (temporalReferenceOffset : Int)
    (hs1 : s.pp.refMvStack.length = s.numMvFound)
    (hs2 : s.pp.weightIndexStack.length = s.numMvFound)
    (hs3 : s.pp.refMvStack.Pairwise (· ≠ ·))
    (ht1 : t.pp.compoundRefMvStack.length = t.numMvFound)
    (ht2 : t.pp.weightIndexStack.length = t.numMvFound)
    (ht3 : t.pp.compoundRefMvStack.Pairwise (· ≠ ·))
    (hu1 : u.pp.refMvStack.length = u.numMvFound)
    (hu2 : u.pp.weightIndexStack.length = u.numMvFound) :
    (applySingleInsertions block referenceOffset0 s ops).pp.refMvStack.Pairwise (· ≠ ·) ∧
    (applyCompoundInsertions block referenceOffsets t ops).pp.compoundRefMvStack.Pairwise
      (· ≠ ·) ∧
    (SearchStackCandidate block mvBp index s.pp ∈ s.pp.refMvStack →
      (SearchStack block mvBp index weight fnm fm s.numMvFound s.pp).pp.refMvStack =
        s.pp.refMvStack ∧
      (SearchStack block mvBp index weight fnm fm s.numMvFound s.pp).numMvFound =
        s.numMvFound ∧
      (SearchStack block mvBp index weight fnm fm s.numMvFound s.pp).pp.weightIndexStack =
        s.pp.weightIndexStack.set
          (s.pp.refMvStack.findIdx
            (fun r => decide (r = SearchStackCandidate block mvBp index s.pp)))
          (s.pp.weightIndexStack.getD
            (s.pp.refMvStack.findIdx
              (fun r => decide (r = SearchStackCandidate block mvBp index s.pp))) 0 +
            weight)) ∧
    (SearchStackCandidate block mvBp index s.pp ∉ s.pp.refMvStack →
      s.numMvFound < kMaxRefMvStackSize →
      (SearchStack block mvBp index weight fnm fm s.numMvFound s.pp).pp.refMvStack =
        s.pp.refMvStack ++ [SearchStackCandidate block mvBp index s.pp] ∧
      (SearchStack block mvBp index weight fnm fm s.numMvFound s.pp).numMvFound =
        s.numMvFound + 1 ∧
      (SearchStack block mvBp index weight fnm fm s.numMvFound s.pp).pp.weightIndexStack =
        s.pp.weightIndexStack ++ [weight]) ∧
    (SearchStackCandidate block mvBp index s.pp ∉ s.pp.refMvStack →
      kMaxRefMvStackSize ≤ s.numMvFound →
      (SearchStack block mvBp index weight fnm fm s.numMvFound s.pp).pp = s.pp ∧
      (SearchStack block mvBp index weight fnm fm s.numMvFound s.pp).numMvFound =
        s.numMvFound) ∧
    (temporalCandidateSingle fh referenceOffset0 temporalMv temporalReferenceOffset ∈
        u.pp.refMvStack →
      (AddTemporalSingleStep fh referenceOffset0 u
          (temporalMv, temporalReferenceOffset)).pp.refMvStack = u.pp.refMvStack ∧
      (AddTemporalSingleStep fh referenceOffset0 u
          (temporalMv, temporalReferenceOffset)).numMvFound = u.numMvFound ∧
      (AddTemporalSingleStep fh referenceOffset0 u
          (temporalMv, temporalReferenceOffset)).pp.weightIndexStack =
        u.pp.weightIndexStack.set
          (u.pp.refMvStack.findIdx
            (fun r => decide
              (r = temporalCandidateSingle fh referenceOffset0 temporalMv
                temporalReferenceOffset)))
          (u.pp.weightIndexStack.getD
            (u.pp.refMvStack.findIdx
              (fun r => decide
                (r = temporalCandidateSingle fh referenceOffset0 temporalMv
                  temporalReferenceOffset))) 0 + 2)) ∧
    (temporalCandidateSingle fh referenceOffset0 temporalMv temporalReferenceOffset ∉
        u.pp.refMvStack →
      u.numMvFound < kMaxRefMvStackSize →
      (AddTemporalSingleStep fh referenceOffset0 u
          (temporalMv, temporalReferenceOffset)).pp.refMvStack =
        u.pp.refMvStack ++
          [temporalCandidateSingle fh referenceOffset0 temporalMv temporalReferenceOffset] ∧
      (AddTemporalSingleStep fh referenceOffset0 u
          (temporalMv, temporalReferenceOffset)).numMvFound = u.numMvFound + 1 ∧
      (AddTemporalSingleStep fh referenceOffset0 u
          (temporalMv, temporalReferenceOffset)).pp.weightIndexStack =
        u.pp.weightIndexStack ++ [2]) ∧
    (temporalCandidateSingle fh referenceOffset0 temporalMv temporalReferenceOffset ∉
        u.pp.refMvStack →
      kMaxRefMvStackSize ≤ u.numMvFound →
      (AddTemporalSingleStep fh referenceOffset0 u
          (temporalMv, temporalReferenceOffset)).pp = u.pp ∧
      (AddTemporalSingleStep fh referenceOffset0 u
          (temporalMv, temporalReferenceOffset)).numMvFound = u.numMvFound) := by
  refine ⟨(applySingleInsertions_inv block referenceOffset0 ops s ⟨hs1, hs2, hs3⟩).2.2,
    (applyCompoundInsertions_inv block referenceOffsets ops t ⟨ht1, ht2, ht3⟩).2.2,
    ?_, ?_, ?_, ?_, ?_, ?_⟩
  · intro hm
    rw [searchStack_eq block mvBp index weight fnm fm s.numMvFound s.pp hs1 hs2, if_pos hm]
    exact ⟨rfl, rfl, rfl⟩
  · intro hm hcap
    rw [searchStack_eq block mvBp index weight fnm fm s.numMvFound s.pp hs1 hs2,
      if_neg hm, if_pos hcap]
    exact ⟨rfl, rfl, rfl⟩
  · intro hm hcap
    rw [searchStack_eq block mvBp index weight fnm fm s.numMvFound s.pp hs1 hs2,
      if_neg hm, if_neg (show ¬s.numMvFound < kMaxRefMvStackSize by omega)]
    exact ⟨rfl, rfl⟩
  · intro hm
    rw [addTemporalSingleStep_eq fh referenceOffset0 u (temporalMv, temporalReferenceOffset)
      hu1 hu2, if_pos hm]
    exact ⟨rfl, rfl, rfl⟩
  · intro hm hcap
    rw [addTemporalSingleStep_eq fh referenceOffset0 u (temporalMv, temporalReferenceOffset)
      hu1 hu2, if_neg hm, if_pos hcap]
    exact ⟨rfl, rfl, rfl⟩
  · intro hm hcap
    rw [addTemporalSingleStep_eq fh referenceOffset0 u (temporalMv, temporalReferenceOffset)
      hu1 hu2, if_neg hm, if_neg (show ¬u.numMvFound < kMaxRefMvStackSize by omega)]
    exact ⟨rfl, rfl⟩

/-- C2 witness: inserting two distinct candidates and then a repeat of
the first leaves a duplicate-free two-entry stack. -/
theorem C2_witness :
    (applySingleInsertions blockNoNeighbors 0
        ⟨false, false, -1, 0, emptyPredictionParameters⟩
        [.spatial neighborAbove 0 2, .spatial neighborLeft 0 2,
         .spatial neighborAbove 0 4]).pp.refMvStack.Pairwise (· ≠ ·) :=
  (C2_dedup_insert blockNoNeighbors 0 (0, 0) _
      ⟨false, false, -1, 0, emptyPredictionParameters⟩
      ⟨false, false, -1, 0, emptyPredictionParameters⟩
      tileNoNeighbors.frameHeader ⟨-1, 0, emptyPredictionParameters⟩
      neighborAbove 0 2 false false MotionVector.zero 1
      rfl rfl (by simp [emptyPredictionParameters]) rfl rfl
      (by simp [emptyPredictionParameters]) rfl rfl).1

/-- C4: starting from the unset zero-MV context (-1), if the very first
sampled grid position is inside the frame and holds no valid stored
vector, the temporal scan ends with zero-MV context 1; otherwise the
first collected valid candidate decides the context: 1 when the maximum
per-component absolute deviation of its projected vector from the global
MV is at least 16, else 0 (later candidates cannot overwrite the context,
so the first write wins). -/
theorem C4_temporal_zero_mv_context (block : Block) (isCompound : Bool)
    (numMvFound : Nat) (pp : PredictionParameters) :
    (block.tile.isBottomRightInside ((block.row4x4 ||| 1 : Nat) : Int)
        ((block.column4x4 ||| 1 : Nat) : Int) = true →
      (block.tile.motionFieldMv
          ((block.tile.motionFieldStride : Int) * (((block.row4x4 ||| 1) >>> 1 : Nat) : Int) +
            (((block.column4x4 ||| 1) >>> 1 : Nat) : Int))).mv0 = kInvalidMvValue →
      (TemporalScan block isCompound (-1) numMvFound pp).zeroMvContext = 1) ∧
    (¬(block.tile.isBottomRightInside ((block.row4x4 ||| 1 : Nat) : Int)
          ((block.column4x4 ||| 1 : Nat) : Int) = true ∧
        (block.tile.motionFieldMv
            ((block.tile.motionFieldStride : Int) * (((block.row4x4 ||| 1) >>> 1 : Nat) : Int) +
              (((block.column4x4 ||| 1) >>> 1 : Nat) : Int))).mv0 = kInvalidMvValue) →
      ∀ (c : MotionVector × Int) (rest : List (MotionVector × Int)),
        (TemporalScanCollect block (-1)).2 = c :: rest →
        (TemporalScan block isCompound (-1) numMvFound pp).zeroMvContext =
          (if isCompound then
            (if 16 ≤ temporalMaxDifferenceCompound pp.globalMv0 pp.globalMv1
                (temporalCandidateCompound block.tile.frameHeader
                  (temporalReferenceOffsetFst block)
                  (temporalReferenceOffsetSnd block isCompound) c.1 c.2) then 1 else 0)
          else
            (if 16 ≤ temporalMaxDifferenceSingle pp.globalMv0
                (temporalCandidateSingle block.tile.frameHeader
                  (temporalReferenceOffsetFst block) c.1 c.2) then 1 else 0))) := by
  constructor
  · intro hin hinv
    have hcell : (TemporalScanSampleCell block.tile (block.row4x4 ||| 1)
        (block.column4x4 ||| 1) (block.row4x4 ||| 1) (block.column4x4 ||| 1)
        ((block.tile.motionFieldStride : Int) * (((block.row4x4 ||| 1) >>> 1 : Nat) : Int))
        (-1) []).1 = 1 := by
      unfold TemporalScanSampleCell
      dsimp only
      rw [if_pos hin, if_pos hinv, if_pos ⟨rfl, rfl⟩]
    have h1 : (TemporalScanCollect block (-1)).1 = 1 :=
      (temporalScanCollect_fst block (-1)).trans hcell
    rw [temporalScan_zmv_of_collect_ne block isCompound (-1) numMvFound pp
      (by rw [h1]; decide), h1]
  · intro hnot c rest hc
    have hcell : (TemporalScanSampleCell block.tile (block.row4x4 ||| 1)
        (block.column4x4 ||| 1) (block.row4x4 ||| 1) (block.column4x4 ||| 1)
        ((block.tile.motionFieldStride : Int) * (((block.row4x4 ||| 1) >>> 1 : Nat) : Int))
        (-1) []).1 = -1 := by
      unfold TemporalScanSampleCell
      dsimp only
      by_cases hin : block.tile.isBottomRightInside ((block.row4x4 ||| 1 : Nat) : Int)
          ((block.column4x4 ||| 1 : Nat) : Int) = true
      · rw [if_pos hin,
          if_neg (show ¬(block.tile.motionFieldMv _).mv0 = kInvalidMvValue from
            fun hv => hnot ⟨hin, hv⟩)]
      · rw [if_neg hin]
    have h1 : (TemporalScanCollect block (-1)).1 = -1 :=
      (temporalScanCollect_fst block (-1)).trans hcell
    unfold TemporalScan
    dsimp only
    rw [hc]
    simp only [List.isEmpty_cons, Bool.false_eq_true, if_false]
    rw [h1]
    unfold AddTemporalReferenceMvCandidate
    cases isCompound with
    | false =>
      simp only [Bool.false_eq_true, if_false, List.foldl_cons]
      rw [foldlSingle_zmv_preserved _ _ rest _ (by
        rw [addTemporalSingleStep_zmv_first _ _
          ⟨-1, numMvFound, pp⟩ c rfl]
        split <;> decide)]
      rw [addTemporalSingleStep_zmv_first _ _ ⟨-1, numMvFound, pp⟩ c rfl]
    | true =>
      simp only [if_true, List.foldl_cons]
      rw [foldlCompound_zmv_preserved _ _ _ rest _ (by
        rw [addTemporalCompoundStep_zmv_first _ _ _
          ⟨-1, numMvFound, pp⟩ c rfl]
        split <;> decide)]
      rw [addTemporalCompoundStep_zmv_first _ _ _ ⟨-1, numMvFound, pp⟩ c rfl]

/-- C4 witness: a block whose one sampled position holds a valid stored
vector projecting to the zero MV (relative distance 0) gets zero-MV
context 0 via the deviation test. -/
theorem C4_witness :
    (TemporalScan blockTemporalProbe false (-1) 0 emptyPredictionParameters).zeroMvContext =
      (if 16 ≤ temporalMaxDifferenceSingle emptyPredictionParameters.globalMv0
          (temporalCandidateSingle tileTemporalProbe.frameHeader
            (temporalReferenceOffsetFst blockTemporalProbe) ⟨100, 0⟩ 1) then 1 else 0) :=
  (C4_temporal_zero_mv_context blockTemporalProbe false 0 emptyPredictionParameters).2
    (by decide) (⟨100, 0⟩, 1) [] (by decide)

/-- C9: if the warp-sample scans leave `num_warp_samples` at 0 while at
least one sample was scanned, `FindWarpSamples` forces the valid count
to 1. -/
theorem C9_findWarpSamples_degenerate (block : Block) (s : WarpSampleState)
    (hzero : (FindWarpSamplesScan block s).numWarpSamples = 0)
    (hscanned : 0 < (FindWarpSamplesScan block s).numSamplesScanned) :
    (FindWarpSamples block s).numWarpSamples = 1 := by
  unfold FindWarpSamples
  rw [if_pos ⟨hzero, hscanned⟩]

/-- C9 witness: a block whose single scanned sample fails the motion
threshold ends the scans with 0 valid of 1 scanned, and the fixup forces
the valid count to 1. -/
theorem C9_witness : (FindWarpSamples blockWarpProbe ⟨0, 0, []⟩).numWarpSamples = 1 :=
  C9_findWarpSamples_degenerate blockWarpProbe ⟨0, 0, []⟩ (by decide) (by decide)

/-- The specialized networks agree with the general stable descending
sort: sorting the first `size` entries and leaving the rest, provided
the list holds at least `size` entries (the source array always does:
its capacity is `kMaxRefMvStackSize`). -/
theorem sortWeightIndexStack_eq (size : Nat) (l : List Int) (hsz : size ≤ l.length) :
    SortWeightIndexStack size l = stableSortDescending (l.take size) ++ l.drop size := by
  rcases size with _ | _ | _ | _ | n
  · simp [SortWeightIndexStack, stableSortDescending]
  · unfold SortWeightIndexStack
    rw [if_pos (by omega)]
    cases l with
    | nil => simp at hsz
    | cons a t => simp [stableSortDescending, List.insertionSort, List.orderedInsert]
  · unfold SortWeightIndexStack
    rw [if_neg (by omega), if_pos rfl]
    match l, hsz with
    | a :: b :: rest, _ =>
      simp only [DescendingOrderTwo, stableSortDescending, List.insertionSort,
        List.orderedInsert, List.take, List.drop]
      by_cases hab : a < b
      · simp [hab, show ¬ a ≥ b by omega]
      · simp [hab, show a ≥ b by omega]
  · unfold SortWeightIndexStack
    rw [if_neg (by omega), if_neg (by omega), if_pos rfl]
    match l, hsz with
    | a :: b :: c :: rest, _ =>
      simp only [DescendingOrderTwo, stableSortDescending, List.insertionSort,
        List.orderedInsert, List.take, List.drop]
      repeat' split
      all_goals try simp only [List.orderedInsert]
      all_goals repeat' split
      all_goals try dsimp only at *
      all_goals first
        | rfl
        | omega
        | (simp only [List.cons.injEq]; refine ⟨by omega, by omega, by omega, rfl⟩)
  · unfold SortWeightIndexStack
    rw [if_neg (by omega), if_neg (by omega), if_neg (by omega)]

/-- The stable descending sort preserves the list length. -/
theorem stableSortDescending_length (l : List Int) :
    (stableSortDescending l).length = l.length :=
  (List.perm_insertionSort _ l).length_eq

/-- Taking the length of the left part of an append returns it. -/
theorem take_append_of_length {xs ys : List Int} {n : Nat} (h : xs.length = n) :
    (xs ++ ys).take n = xs := by
  subst h; exact List.take_left xs ys

/-- Dropping the length of the left part of an append returns the right part. -/
theorem drop_append_of_length {xs ys : List Int} {n : Nat} (h : xs.length = n) :
    (xs ++ ys).drop n = ys := by
  subst h; exact List.drop_left xs ys

/-- With at least two candidates, `FindMvStack` applies the two
segmented weight sorts to the scanned weight stack. -/
theorem findMvStack_weights (block : Block) (isCompound : Bool)
    (h2 : ¬ (FindMvStackScan block isCompound).numMvFound < 2) :
    (FindMvStack block isCompound).1.weightIndexStack =
      (if (FindMvStackScan block isCompound).pp.nearestMvCount < 4 then
        (SortWeightIndexStack (FindMvStackScan block isCompound).pp.nearestMvCount
          (FindMvStackScan block isCompound).pp.weightIndexStack).take
            (FindMvStackScan block isCompound).pp.nearestMvCount ++
          SortWeightIndexStack
            ((FindMvStackScan block isCompound).numMvFound -
              (FindMvStackScan block isCompound).pp.nearestMvCount)
            ((SortWeightIndexStack (FindMvStackScan block isCompound).pp.nearestMvCount
              (FindMvStackScan block isCompound).pp.weightIndexStack).drop
                (FindMvStackScan block isCompound).pp.nearestMvCount)
      else SortWeightIndexStack (FindMvStackScan block isCompound).pp.nearestMvCount
        (FindMvStackScan block isCompound).pp.weightIndexStack) := by
  unfold FindMvStack
  dsimp only
  rw [if_neg h2]

/-- The stable descending sort is sorted for the weight order. -/
theorem stableSortDescending_sorted (l : List Int) :
    List.Sorted (fun a b => a ≥ b) (stableSortDescending l) :=
  List.sorted_insertionSort _ l

/-- The stable descending sort permutes its input. -/
theorem stableSortDescending_perm (l : List Int) :
    List.Perm (stableSortDescending l) l :=
  List.perm_insertionSort _ l

/-- C3: when the scans found at least two candidates, the final weight
stack is the scanned stack sorted by weight in descending order in two
separate groups: the first `nearest_mv_count` entries become the stable
descending sort of the original first group (hence sorted and a
permutation of it), the remaining entries become the stable descending
sort of the original remainder when `nearest_mv_count < 4`, and are left
untouched when `nearest_mv_count ≥ 4`; entries never cross groups and
ties keep their original relative order. -/
theorem C3_two_group_stable_sort (block : Block) (isCompound : Bool)
    (h2 : 2 ≤ (FindMvStackScan block isCompound).numMvFound) :
    ((FindMvStack block isCompound).1.weightIndexStack.take
        (FindMvStackScan block isCompound).pp.nearestMvCount =
      stableSortDescending
        ((FindMvStackScan block isCompound).pp.weightIndexStack.take
          (FindMvStackScan block isCompound).pp.nearestMvCount)) ∧
    List.Sorted (fun a b => a ≥ b)
      ((FindMvStack block isCompound).1.weightIndexStack.take
        (FindMvStackScan block isCompound).pp.nearestMvCount) ∧
    List.Perm
      ((FindMvStack block isCompound).1.weightIndexStack.take
        (FindMvStackScan block isCompound).pp.nearestMvCount)
      ((FindMvStackScan block isCompound).pp.weightIndexStack.take
        (FindMvStackScan block isCompound).pp.nearestMvCount) ∧
    ((FindMvStackScan block isCompound).pp.nearestMvCount < 4 →
      (FindMvStack block isCompound).1.weightIndexStack.drop
          (FindMvStackScan block isCompound).pp.nearestMvCount =
        stableSortDescending
          ((FindMvStackScan block isCompound).pp.weightIndexStack.drop
            (FindMvStackScan block isCompound).pp.nearestMvCount)) ∧
    (4 ≤ (FindMvStackScan block isCompound).pp.nearestMvCount →
      (FindMvStack block isCompound).1.weightIndexStack.drop
          (FindMvStackScan block isCompound).pp.nearestMvCount =
        (FindMvStackScan block isCompound).pp.weightIndexStack.drop
          (FindMvStackScan block isCompound).pp.nearestMvCount) := by
  have hwf := findMvStackScan_wf block isCompound
  have hw := findMvStack_weights block isCompound (by omega)
  generalize hR : FindMvStackScan block isCompound = r at *
  obtain ⟨hlen, hle, -⟩ := hwf
  have hS1 := sortWeightIndexStack_eq r.pp.nearestMvCount r.pp.weightIndexStack
    (by rw [hlen]; exact hle)
  have hlenTake : (stableSortDescending
      (r.pp.weightIndexStack.take r.pp.nearestMvCount)).length = r.pp.nearestMvCount := by
    rw [stableSortDescending_length, List.length_take, hlen]
    omega
  have htake : (SortWeightIndexStack r.pp.nearestMvCount r.pp.weightIndexStack).take
      r.pp.nearestMvCount =
      stableSortDescending (r.pp.weightIndexStack.take r.pp.nearestMvCount) := by
    rw [hS1]; exact take_append_of_length hlenTake
  have hdrop : (SortWeightIndexStack r.pp.nearestMvCount r.pp.weightIndexStack).drop
      r.pp.nearestMvCount = r.pp.weightIndexStack.drop r.pp.nearestMvCount := by
    rw [hS1]; exact drop_append_of_length hlenTake
  have hlenDrop : (r.pp.weightIndexStack.drop r.pp.nearestMvCount).length =
      r.numMvFound - r.pp.nearestMvCount := by
    rw [List.length_drop, hlen]
  have hS2 : SortWeightIndexStack (r.numMvFound - r.pp.nearestMvCount)
      (r.pp.weightIndexStack.drop r.pp.nearestMvCount) =
      stableSortDescending (r.pp.weightIndexStack.drop r.pp.nearestMvCount) := by
    rw [sortWeightIndexStack_eq _ _ hlenDrop.ge,
      List.take_of_length_le hlenDrop.le, List.drop_eq_nil_of_le hlenDrop.le,
      List.append_nil]
  by_cases h4 : r.pp.nearestMvCount < 4
  · rw [if_pos h4, htake, hdrop, hS2] at hw
    have hc1 : (FindMvStack block isCompound).1.weightIndexStack.take
        r.pp.nearestMvCount =
        stableSortDescending (r.pp.weightIndexStack.take r.pp.nearestMvCount) := by
      rw [hw]; exact take_append_of_length hlenTake
    refine ⟨hc1, ?_, ?_, fun _ => ?_, fun hge => absurd hge (by omega)⟩
    · rw [hc1]; exact stableSortDescending_sorted _
    · rw [hc1]; exact stableSortDescending_perm _
    · rw [hw]; exact drop_append_of_length hlenTake
  · rw [if_neg h4] at hw
    have hc1 : (FindMvStack block isCompound).1.weightIndexStack.take
        r.pp.nearestMvCount =
        stableSortDescending (r.pp.weightIndexStack.take r.pp.nearestMvCount) := by
      rw [hw]; exact htake
    refine ⟨hc1, ?_, ?_, fun hlt => absurd hlt h4, fun _ => ?_⟩
    · rw [hc1]; exact stableSortDescending_sorted _
    · rw [hc1]; exact stableSortDescending_perm _
    · rw [hw]; exact hdrop

/-- C3 witness: a block with one above and one left spatial neighbor
yields at least two scanned candidates, and the two-group sort
properties hold there. -/
theorem C3_witness :
    2 ≤ (FindMvStackScan blockTwoNeighbors false).numMvFound ∧
    (((FindMvStack blockTwoNeighbors false).1.weightIndexStack.take
        (FindMvStackScan blockTwoNeighbors false).pp.nearestMvCount =
      stableSortDescending
        ((FindMvStackScan blockTwoNeighbors false).pp.weightIndexStack.take
          (FindMvStackScan blockTwoNeighbors false).pp.nearestMvCount)) ∧
    List.Sorted (fun a b => a ≥ b)
      ((FindMvStack blockTwoNeighbors false).1.weightIndexStack.take
        (FindMvStackScan blockTwoNeighbors false).pp.nearestMvCount) ∧
    List.Perm
      ((FindMvStack blockTwoNeighbors false).1.weightIndexStack.take
        (FindMvStackScan blockTwoNeighbors false).pp.nearestMvCount)
      ((FindMvStackScan blockTwoNeighbors false).pp.weightIndexStack.take
        (FindMvStackScan blockTwoNeighbors false).pp.nearestMvCount) ∧
    ((FindMvStackScan blockTwoNeighbors false).pp.nearestMvCount < 4 →
      (FindMvStack blockTwoNeighbors false).1.weightIndexStack.drop
          (FindMvStackScan blockTwoNeighbors false).pp.nearestMvCount =
        stableSortDescending
          ((FindMvStackScan blockTwoNeighbors false).pp.weightIndexStack.drop
            (FindMvStackScan blockTwoNeighbors false).pp.nearestMvCount)) ∧
    (4 ≤ (FindMvStackScan blockTwoNeighbors false).pp.nearestMvCount →
      (FindMvStack blockTwoNeighbors false).1.weightIndexStack.drop
          (FindMvStackScan blockTwoNeighbors false).pp.nearestMvCount =
        (FindMvStackScan blockTwoNeighbors false).pp.weightIndexStack.drop
          (FindMvStackScan blockTwoNeighbors false).pp.nearestMvCount)) :=
  ⟨by decide, C3_two_group_stable_sort blockTwoNeighbors false (by decide)⟩

/-- `ScanRow` is a no-op when the probed row is outside the tile. -/
theorem scanRow_of_top_outside (block : Block) (mvColumn deltaRow : Int) (isCompound : Bool)
    (s : ScanOut) (h : block.tile.isTopInside ((block.row4x4 : Int) + deltaRow + 1) = false) :
    ScanRow block mvColumn deltaRow isCompound s = s := by
  unfold ScanRow
  dsimp only
  rw [if_neg (show ¬ block.tile.isTopInside ((block.row4x4 : Int) + deltaRow + 1) = true by
    simp [h])]

/-- `ScanColumn` is a no-op when the probed column is outside the tile. -/
theorem scanColumn_of_left_outside (block : Block) (mvRow deltaColumn : Int) (isCompound : Bool)
    (s : ScanOut)
    (h : block.tile.isLeftInside ((block.column4x4 : Int) + deltaColumn + 1) = false) :
    ScanColumn block mvRow deltaColumn isCompound s = s := by
  unfold ScanColumn
  dsimp only
  rw [if_neg (show ¬ block.tile.isLeftInside ((block.column4x4 : Int) + deltaColumn + 1) = true by
    simp [h])]

/-- `ScanPoint` is a no-op when the probed position is outside the tile. -/
theorem scanPoint_of_outside (block : Block) (deltaRow deltaColumn : Int) (isCompound : Bool)
    (s : ScanOut)
    (h : block.tile.isInside ((block.row4x4 : Int) + deltaRow)
      ((block.column4x4 : Int) + deltaColumn) = false) :
    ScanPoint block deltaRow deltaColumn isCompound s = s := by
  unfold ScanPoint
  dsimp only
  rw [if_neg (show ¬ (block.tile.isInside ((block.row4x4 : Int) + deltaRow)
      ((block.column4x4 : Int) + deltaColumn) &&
    block.tile.hasParameters ((block.row4x4 : Int) + deltaRow)
      ((block.column4x4 : Int) + deltaColumn)) = true by simp [h])]

/-- An extra-search pass stops immediately when its first probed
position is outside the tile. -/
theorem extraSearchPassLoop_of_outside (block : Block) (isCompound : Bool) (pass : Nat)
    (num4x4 : Int) (fuel numMvFound : Nat) (pp : PredictionParameters) (acc : ExtraCompoundAcc)
    (h : block.tile.isTopLeftInside
      ((block.row4x4 : Int) + (if pass = 0 then -1 else 0) + 1)
      ((block.column4x4 : Int) + (if pass = 0 then 0 else -1) + 1) = false) :
    ExtraSearchPassLoop block isCompound pass num4x4 fuel 0 numMvFound pp acc =
      (numMvFound, pp, acc) := by
  cases fuel with
  | zero => rfl
  | succ fuel =>
    unfold ExtraSearchPassLoop
    dsimp only
    split
    · rw [if_neg (show ¬ block.tile.isTopLeftInside
        ((block.row4x4 : Int) + (if pass = 0 then -1 else 0) + 1)
        ((block.column4x4 : Int) + (if pass = 0 then 0 else -1) + 1) = true by simp [h])]
    · rfl

/-- With no reachable neighbors, the single-prediction extra search
fills the stack with two copies of the global MV, both with weight 0,
while leaving the candidate count at 0 (the filler loop does not update
`num_mv_found`). -/
theorem extraSearch_no_neighbors (block : Block) (pp : PredictionParameters)
    (hcorner : ∀ r c : Int, r ≤ (block.row4x4 : Int) ∨ c ≤ (block.column4x4 : Int) →
      block.tile.isTopLeftInside r c = false) :
    ExtraSearch block false 0 pp =
      (0, { pp with
              refMvStack := [pp.globalMv0, pp.globalMv0],
              weightIndexStack := [0, 0] }) := by
  unfold ExtraSearch
  dsimp only
  rw [if_pos (show (0 : Nat) < 2 by omega)]
  rw [extraSearchPassLoop_of_outside block false 0 _ _ _ _ _
    (by rw [if_pos rfl, if_pos rfl]; exact hcorner _ _ (Or.inl (by omega)))]
  dsimp only
  rw [if_pos (show (0 : Nat) < 2 by omega)]
  rw [extraSearchPassLoop_of_outside block false 1 _ _ _ _ _
    (by rw [if_neg (by omega), if_neg (by omega)]; exact hcorner _ _ (Or.inr (by omega)))]
  rfl

/-- With no reachable neighbors, the nearest scans find nothing. -/
theorem findMvStackNearest_no_neighbors (block : Block) (isCompound : Bool)
    (htop : ∀ r : Int, r ≤ (block.row4x4 : Int) → block.tile.isTopInside r = false)
    (hleft : ∀ c : Int, c ≤ (block.column4x4 : Int) → block.tile.isLeftInside c = false)
    (hpoint : ∀ r c : Int, r < (block.row4x4 : Int) → block.tile.isInside r c = false) :
    FindMvStackNearest block isCompound =
      (⟨false, false, 0, FindMvStackInitialPredictionParameters block isCompound⟩, false) := by
  unfold FindMvStackNearest
  dsimp only
  rw [scanRow_of_top_outside _ _ _ _ _ (htop _ (by omega)),
    scanColumn_of_left_outside _ _ _ _ _ (hleft _ (by omega))]
  split
  · rw [scanPoint_of_outside _ _ _ _ _ (hpoint _ _ (by omega))]
  · rfl

/-- With no reachable neighbors, the later scans change nothing. -/
theorem findMvStackLaterScans_no_neighbors (block : Block) (isCompound : Bool)
    (frm fcm : Bool) (n : Nat) (pp : PredictionParameters)
    (htop : ∀ r : Int, r ≤ (block.row4x4 : Int) → block.tile.isTopInside r = false)
    (hleft : ∀ c : Int, c ≤ (block.column4x4 : Int) → block.tile.isLeftInside c = false)
    (hpoint : ∀ r c : Int, r < (block.row4x4 : Int) → block.tile.isInside r c = false) :
    FindMvStackLaterScans block isCompound frm fcm n pp = (frm, fcm, n, pp) := by
  have handr : block.row4x4 &&& 1 ≤ 1 := Nat.and_le_right
  have handc : block.column4x4 &&& 1 ≤ 1 := Nat.and_le_right
  unfold FindMvStackLaterScans
  dsimp only
  rw [scanPoint_of_outside _ (-1) (-1) _ _ (hpoint _ _ (by omega)),
    scanRow_of_top_outside _ _ (-3 + ((block.row4x4 &&& 1 : Nat) : Int)) _ _
      (htop _ (by omega)),
    scanColumn_of_left_outside _ _ (-3 + ((block.column4x4 &&& 1 : Nat) : Int)) _ _
      (hleft _ (by omega))]
  split
  · rw [scanRow_of_top_outside _ _ (-5 + ((block.row4x4 &&& 1 : Nat) : Int)) _ _
      (htop _ (by omega))]
    split
    · rw [scanColumn_of_left_outside _ _ (-5 + ((block.column4x4 &&& 1 : Nat) : Int)) _ _
        (hleft _ (by omega))]
    · rfl
  · split
    · rw [scanColumn_of_left_outside _ _ (-5 + ((block.column4x4 &&& 1 : Nat) : Int)) _ _
        (hleft _ (by omega))]
    · rfl

/-- With no reachable neighbors and temporal MV usage disabled, the scan
phase ends with no candidates and a zero-MV context of 0. -/
theorem findMvStackScan_no_neighbors (block : Block)
    (htop : ∀ r : Int, r ≤ (block.row4x4 : Int) → block.tile.isTopInside r = false)
    (hleft : ∀ c : Int, c ≤ (block.column4x4 : Int) → block.tile.isLeftInside c = false)
    (hpoint : ∀ r c : Int, r < (block.row4x4 : Int) → block.tile.isInside r c = false)
    (hmvs : block.tile.frameHeader.useRefFrameMvs = false) :
    FindMvStackScan block false =
      ⟨false, false, false, 0, 0, 0,
        FindMvStackInitialPredictionParameters block false⟩ := by
  unfold FindMvStackScan
  dsimp only
  rw [findMvStackNearest_no_neighbors block false htop hleft hpoint]
  dsimp only
  rw [if_neg (show ¬ block.tile.frameHeader.useRefFrameMvs = true by simp [hmvs])]
  rw [findMvStackLaterScans_no_neighbors block false _ _ _ _ htop hleft hpoint]
  rfl

/-- C1 (amended): for a block with no available top, left or corner
neighbors and temporal MV usage disabled, single-prediction
`FindMvStack` writes the global MV computed by `SetupGlobalMv` for
reference 0 into both `ref_mv_stack[0]` and `ref_mv_stack[1]` and ends
with a zero-MV context of 0 -- but with `ref_mv_count` equal to 0, not
2: the single-prediction filler loop of `ExtraSearch` stores the stack
entries without updating `num_mv_found` (only the compound branch sets
the count to 2). -/
theorem C1_no_neighbors_global_mv (block : Block)
    (htop : ∀ r : Int, r ≤ (block.row4x4 : Int) → block.tile.isTopInside r = false)
    (hleft : ∀ c : Int, c ≤ (block.column4x4 : Int) → block.tile.isLeftInside c = false)
    (hpoint : ∀ r c : Int, r < (block.row4x4 : Int) → block.tile.isInside r c = false)
    (hcorner : ∀ r c : Int, r ≤ (block.row4x4 : Int) ∨ c ≤ (block.column4x4 : Int) →
      block.tile.isTopLeftInside r c = false)
    (hmvs : block.tile.frameHeader.useRefFrameMvs = false) :
    (FindMvStack block false).1.refMvCount = 0 ∧
    (FindMvStack block false).1.refMvStack =
      [SetupGlobalMv block 0, SetupGlobalMv block 0] ∧
    (FindMvStack block false).2.zeroMv = 0 := by
  unfold FindMvStack
  dsimp only
  rw [findMvStackScan_no_neighbors block htop hleft hpoint hmvs]
  dsimp only
  rw [if_pos (show (0 : Nat) < 2 by omega)]
  rw [extraSearch_no_neighbors block _ hcorner]
  exact ⟨rfl, rfl, rfl⟩

/-- C1 counterexample: on the concrete neighbor-free block the claimed
`ref_mv_count == 2` fails -- the count stays 0 even though both stack
entries hold the global MV and the zero-MV context is 0. -/
theorem C1_counterexample :
    (FindMvStack blockNoNeighbors false).1.refMvCount = 0 ∧
    ¬ (FindMvStack blockNoNeighbors false).1.refMvCount = 2 := by
  constructor <;> decide

/-- C1 witness: the concrete neighbor-free block ends with both stack
entries holding its global MV, a candidate count of 0 and a zero-MV
context of 0. -/
theorem C1_witness :
    (FindMvStack blockNoNeighbors false).1.refMvCount = 0 ∧
    (FindMvStack blockNoNeighbors false).1.refMvStack =
      [SetupGlobalMv blockNoNeighbors 0, SetupGlobalMv blockNoNeighbors 0] ∧
    (FindMvStack blockNoNeighbors false).2.zeroMv = 0 :=
  C1_no_neighbors_global_mv blockNoNeighbors (fun _ _ => rfl) (fun _ _ => rfl)
    (fun _ _ _ => rfl) (fun _ _ _ => rfl) rfl


end Libgav1
